import Mathlib

/-!
# drone-slack: `plugin.go`

A shallow embedding of the message construction and delivery logic of the
drone-slack plugin (`src/plugin.go`), and the properties of it that the
specification states.

Conventions of the embedding.

* A Go `string` is a finite sequence of bytes: `GoString := List UInt8`.
  `len(s)` is `s.length`, `s[:8]` is the first eight bytes and panics when
  `len(s) < 8`, `a + b` is `a ++ b`, `s == ""` is `s = []`.
* `fmt.Sprintf` with `%s` and `%d` verbs is concatenation of the literal
  pieces of the format with the arguments (`%d` prints an `int` in decimal).
* A function that can panic returns `Option`; `none` is the run-time panic.
* The functions of other packages whose result the repository does not fix
  (`strings.Title`, `strings.ToUpper`, `strings.TrimSpace`, `url.Parse` with
  `(*URL).Hostname`, `template.RenderTrim`, `(*WebHook).PostMessage`) are the
  fields of an environment `Env`; theorems hold for every environment.
  `asciiEnv` is a concrete environment used to evaluate examples.
-/

namespace DroneSlack

/-- A Go `string`: an immutable sequence of bytes. -/
abbrev GoString := List UInt8

/-- A Go `error` value, identified by its message. -/
abbrev GoError := GoString

/-- The bytes (UTF-8) of a string literal of the source. -/
def str (s : String) : GoString := s.data.flatMap String.utf8EncodeChar

/-- The byte of an ASCII character literal. -/
def ch (c : Char) : UInt8 := c.toNat.toUInt8

/-! ## Data model (`plugin.go`, lines 12-78) -/

structure Repo where
  Owner : GoString
  Name : GoString
  Link : GoString
  HostInternal : GoString
  HostExternal : GoString
deriving DecidableEq

structure Author where
  Username : GoString
  Name : GoString
  Email : GoString
  Avatar : GoString
deriving DecidableEq

structure Message where
  msg : GoString
  Title : GoString
  Body : GoString
deriving DecidableEq

structure Build where
  Tag : GoString
  Event : GoString
  Number : Int
  Parent : Int
  Commit : GoString
  Ref : GoString
  Branch : GoString
  Author : DroneSlack.Author
  Pull : GoString
  Message : DroneSlack.Message
  DeployTo : GoString
  Status : GoString
  Link : GoString
  Started : Int
  Created : Int
deriving DecidableEq

structure Config where
  Webhook : GoString
  Channel : GoString
  Recipient : GoString
  Username : GoString
  Template : GoString
  Fallback : GoString
  ImageURL : GoString
  IconURL : GoString
  IconEmoji : GoString
  HostInternal : GoString
  HostExternal : GoString
  Color : GoString
  LinkNames : Bool
deriving DecidableEq

structure Job where
  Started : Int
deriving DecidableEq

structure Plugin where
  Repo : DroneSlack.Repo
  Build : DroneSlack.Build
  Config : DroneSlack.Config
  Job : DroneSlack.Job
deriving DecidableEq

/-- The fields of `slack.Attachment` that `Exec` sets; every other field of
the library type keeps its zero value. -/
structure Attachment where
  Color : GoString
  Fallback : GoString
  Text : GoString
  ImageURL : GoString
  MarkdownIn : List GoString
deriving DecidableEq

/-- The fields of `slack.WebHookPostPayload` that `Exec` sets; an unset
string field is the empty string. -/
structure WebHookPostPayload where
  Username : GoString
  IconUrl : GoString
  IconEmoji : GoString
  Channel : GoString
  LinkNames : GoString
  Attachments : List Attachment
deriving DecidableEq

/-- The library functions called by `plugin.go` whose results are not fixed
by the repository.

* `title`, `toUpper`, `trimSpace`: `strings.Title`, `strings.ToUpper`,
  `strings.TrimSpace`.
* `urlHostname link`: `url.Parse(link)` followed by `url.Hostname()`;
  `none` when `url.Parse` returns a non-nil error.
* `renderTrim`: `template.RenderTrim` of drone-template-lib.
* `postMessage webhook payload`: `slack.NewWebHook(webhook).PostMessage(&payload)`;
  `none` is the nil error. -/
structure Env where
  title : GoString → GoString
  toUpper : GoString → GoString
  trimSpace : GoString → GoString
  urlHostname : GoString → Option GoString
  renderTrim : GoString → Plugin → Except GoError GoString
  postMessage : GoString → WebHookPostPayload → Option GoError

/-! ## Byte-level helpers of the Go runtime and of package `strings` -/

/-- The slice expression `s[:n]`: the first `n` bytes, a panic (`none`)
when `n > len(s)`. -/
def sliceTo (s : GoString) (n : Nat) : Option GoString :=
  if n ≤ s.length then some (s.take n) else none

/-- The call `strings.HasPrefix(s, pre)`. -/
def hasPrefix (s pre : GoString) : Bool := pre.isPrefixOf s

/-- The call `strings.Replace(s, old, new, 1)`: the first occurrence of `old`
in `s` is replaced by `new`; an empty `old` matches at the beginning of `s`;
`s` is returned when `old` does not occur. -/
def replaceFirst : GoString → GoString → GoString → GoString
  | [], old, new => if old = [] then new else []
  | c :: s, old, new =>
    if old.isPrefixOf (c :: s) then new ++ (c :: s).drop old.length
    else c :: replaceFirst s old new

/-- The call `strings.Split(s, sep)` for a one-byte separator: the pieces of
`s` between the occurrences of `sep`; always at least one piece. -/
def splitOn (sep : UInt8) : GoString → List GoString
  | [] => [[]]
  | c :: s =>
    if c = sep then [] :: splitOn sep s
    else
      match splitOn sep s with
      | [] => [[c]]
      | hd :: tl => (c :: hd) :: tl

/-- The call `strings.Join(elems, sep)`. -/
def join (sep : GoString) : List GoString → GoString
  | [] => []
  | [a] => a
  | a :: b :: rest => a ++ sep ++ join sep (b :: rest)

/-- The verb `%d` of `fmt.Sprintf` on an `int`. -/
def fmtInt (n : Int) : GoString := str (toString n)

/-! ## The functions of `plugin.go` -/

/-- Source: `func (a Author) String() string` (lines 80-82). -/
def Author.String (a : Author) : GoString := a.Username

/-- Source: `func newCommitMessage(m string) Message` (lines 84-95).
`splitMsg[0]` panics on an empty slice, hence the `Option`. -/
def newCommitMessage (env : Env) (m : GoString) : Option Message :=
  let splitMsg := splitOn (ch '\n') m
  match splitMsg with
  | [] => none
  | first :: rest =>
    some { msg := m
           Title := env.trimSpace first
           Body := env.trimSpace (join (str "\n") rest) }

/-- Source: `func (m Message) String() string` (lines 96-98). -/
def Message.String (m : Message) : GoString := m.msg

/-- Source: `func color(build Build) string` (lines 200-209). -/
def color (build : Build) : GoString :=
  if build.Status = str "success" then str "good"
  else if build.Status = str "failure" ∨ build.Status = str "error"
      ∨ build.Status = str "killed" then str "danger"
  else str "warning"

/-- Source: `func icon(build Build) string` (lines 211-220). -/
def icon (build : Build) : GoString :=
  if build.Status = str "success" then str ":white_check_mark:"
  else if build.Status = str "failure" ∨ build.Status = str "error"
      ∨ build.Status = str "killed" then str ":x:"
  else str ":warning:"

/-- Source: `func prepend(prefix, s string) string` (lines 222-228). -/
def prepend (pre s : GoString) : GoString :=
  if !hasPrefix s pre then pre ++ s else s

/-- Source: `func fallback(repo Repo, build Build) string` (lines 189-198);
`none` is the panic of `build.Commit[:8]`. -/
def fallback (repo : Repo) (build : Build) : Option GoString :=
  match sliceTo build.Commit 8 with
  | none => none
  | some commit8 =>
    some (build.Status ++ str " " ++ repo.Owner ++ str "/" ++ repo.Name ++ str "#"
      ++ commit8 ++ str " (" ++ build.Branch ++ str ") by " ++ build.Author.String)

/-- The first line of the body (`msgTitle`, lines 153 and 158-162): the
default title, replaced when a deploy target is set. -/
def msgTitle (env : Env) (build : Build) : GoString :=
  let statusIcon := icon build
  let msgTitle := str "*" ++ statusIcon ++ str " " ++ env.title build.Event ++ str " "
    ++ env.toUpper build.Status ++ str "*"
  if build.Event = str "promote" ∧ build.DeployTo ≠ [] then
    str "*" ++ statusIcon ++ str " " ++ env.title build.DeployTo ++ str " Deploy "
      ++ env.toUpper build.Status ++ str "*"
  else if build.DeployTo ≠ [] then
    str "*" ++ statusIcon ++ str " " ++ env.title build.DeployTo ++ str " "
      ++ env.title build.Event ++ str " " ++ env.toUpper build.Status ++ str "*"
  else msgTitle

/-- The second line of the body (`msgRepo`, line 154). -/
def msgRepo (repo : Repo) (build : Build) : GoString :=
  str "Repo: \x60" ++ repo.Owner ++ str "/" ++ repo.Name ++ str "\x60 (" ++ build.Branch
    ++ str ")"

/-- The third line of the body (`msgBuild`, line 155); `none` is the panic of
`build.Commit[:8]`. -/
def msgBuild (build : Build) : Option GoString :=
  match sliceTo build.Commit 8 with
  | none => none
  | some commit8 =>
    some (str "Build #" ++ fmtInt build.Number ++ str " (" ++ commit8 ++ str ") by "
      ++ build.Author.String)

/-- The fourth line of the body (`msgFooter`, lines 156 and 164-178). -/
def msgFooter (env : Env) (build : Build) (config : Config) : GoString :=
  let msgFooter := str "<" ++ build.Link ++ str "|Drone CI>"
  if config.HostInternal ≠ [] ∧ config.HostExternal ≠ [] then
    let urls : GoString × GoString :=
      match env.urlHostname build.Link with
      | none => (build.Link, build.Link)
      | some hostname =>
        (replaceFirst build.Link hostname config.HostInternal,
         replaceFirst build.Link hostname config.HostExternal)
    str "<" ++ urls.1 ++ str "|Drone CI> (<" ++ urls.2 ++ str "|External>)"
  else msgFooter

/-- Source: `func message(repo Repo, build Build, config Config) string`
(lines 151-187); `none` is the panic of `build.Commit[:8]`. -/
def message (env : Env) (repo : Repo) (build : Build) (config : Config) : Option GoString :=
  match msgBuild build with
  | none => none
  | some build3 =>
    some (msgTitle env build ++ str "\n" ++ msgRepo repo build ++ str "\n" ++ build3
      ++ str "\n" ++ msgFooter env build config)

/-- Source: `func templateMessage(t string, plugin Plugin) (string, error)`
(lines 147-149). -/
def templateMessage (env : Env) (t : GoString) (plugin : Plugin) : Except GoError GoString :=
  env.renderTrim t plugin

/-- The result of evaluating a sub-expression of `Exec`: a panic, an early
`return err`, or a value. -/
inductive Step (α : Type) where
  | panic : Step α
  | fail (err : GoError) : Step α
  | ok (a : α) : Step α

/-- How a call of `Exec` ends: with a run-time panic, or by returning an
error value (`none` is `nil`). -/
inductive Outcome where
  | panic : Outcome
  | ret (err : Option GoError) : Outcome
deriving DecidableEq

/-- What a call of `Exec` does: the calls of `PostMessage` it made (webhook
URL and payload), in order, and how it ended. -/
structure ExecResult where
  posts : List (GoString × WebHookPostPayload)
  outcome : Outcome
deriving DecidableEq

/-- Source: `func (p Plugin) Exec() error` (lines 100-145). The payload holds
a pointer to the attachment, so the text assigned at lines 133-141 is part
of the payload that is posted. -/
def Exec (env : Env) (p : Plugin) : ExecResult :=
  let attachment : Attachment :=
    { Color := p.Config.Color
      ImageURL := p.Config.ImageURL
      MarkdownIn := [str "text", str "fallback"]
      Fallback := []
      Text := [] }
  let attachment : Attachment :=
    if p.Config.Color = [] then { attachment with Color := color p.Build } else attachment
  let fb : Step GoString :=
    if p.Config.Fallback ≠ [] then
      match templateMessage env p.Config.Fallback p with
      | .error err => .fail err
      | .ok f => .ok f
    else
      match fallback p.Repo p.Build with
      | none => .panic
      | some f => .ok f
  match fb with
  | .panic => { posts := [], outcome := .panic }
  | .fail err => { posts := [], outcome := .ret (some err) }
  | .ok f =>
    let attachment : Attachment := { attachment with Fallback := f }
    let channel : GoString :=
      if p.Config.Recipient ≠ [] then prepend (str "@") p.Config.Recipient
      else if p.Config.Channel ≠ [] then prepend (str "#") p.Config.Channel
      else []
    let linkNames : GoString := if p.Config.LinkNames then str "1" else []
    let tx : Step GoString :=
      if p.Config.Template ≠ [] then
        match templateMessage env p.Config.Template p with
        | .error err => .fail err
        | .ok t => .ok t
      else
        match message env p.Repo p.Build p.Config with
        | none => .panic
        | some t => .ok t
    match tx with
    | .panic => { posts := [], outcome := .panic }
    | .fail err => { posts := [], outcome := .ret (some err) }
    | .ok t =>
      let attachment : Attachment := { attachment with Text := t }
      let payload : WebHookPostPayload :=
        { Username := p.Config.Username
          Attachments := [attachment]
          IconUrl := p.Config.IconURL
          IconEmoji := p.Config.IconEmoji
          Channel := channel
          LinkNames := linkNames }
      { posts := [(p.Config.Webhook, payload)]
        outcome := .ret (env.postMessage p.Config.Webhook payload) }

/-! ## A concrete environment

Executable models of the library functions, used to evaluate the functions
above on concrete inputs. They follow the Go standard library on ASCII
input: `asciiTitle`, `asciiToUpper` and `asciiTrimSpace` are `strings.Title`,
`strings.ToUpper` and `strings.TrimSpace` on strings of ASCII bytes (bytes
from `0x80` on are left alone), and `urlHostnameModel` follows `url.Parse`
and `(*URL).Hostname` of `net/url` on links without `%`, without userinfo
checks and without checks of the path and of the fragment. -/

def isLower (c : UInt8) : Bool := decide (ch 'a' ≤ c) && decide (c ≤ ch 'z')

def isUpper (c : UInt8) : Bool := decide (ch 'A' ≤ c) && decide (c ≤ ch 'Z')

def isDigit (c : UInt8) : Bool := decide (ch '0' ≤ c) && decide (c ≤ ch '9')

/-- ASCII case of `unicode.ToUpper` (and of `unicode.ToTitle`). -/
def upperByte (c : UInt8) : UInt8 := if isLower c then c - 32 else c

/-- ASCII case of `isSeparator` of package `strings`: letters, digits and
the underscore are not separators, every other ASCII byte is. -/
def isSeparator (c : UInt8) : Bool :=
  decide (c ≤ 0x7F) && !(isDigit c || isLower c || isUpper c || c == ch '_')

/-- The loop of `strings.Title`: a byte that follows a separator is put in
title case; `prev` is the previous byte. -/
def titleFrom : UInt8 → GoString → GoString
  | _, [] => []
  | prev, c :: s => (if isSeparator prev then upperByte c else c) :: titleFrom c s

/-- Model of `strings.Title` on ASCII input. -/
def asciiTitle (s : GoString) : GoString := titleFrom (ch ' ') s

/-- Model of `strings.ToUpper` on ASCII input. -/
def asciiToUpper (s : GoString) : GoString := s.map upperByte

/-- ASCII white space of `strings.TrimSpace`: tab, line feed, vertical tab,
form feed, carriage return, space. -/
def isSpace (c : UInt8) : Bool :=
  c == 9 || c == 10 || c == 11 || c == 12 || c == 13 || c == 32

/-- Model of `strings.TrimSpace` on ASCII input. -/
def asciiTrimSpace (s : GoString) : GoString :=
  ((s.dropWhile isSpace).reverse.dropWhile isSpace).reverse

/-- The loop of `getScheme` of `net/url` at index `i`, with `rest` the bytes
from `i` on: the scheme and what follows its colon; `none` is the error
"missing protocol scheme". -/
def getSchemeFrom (rawURL : GoString) : Nat → GoString → Option (GoString × GoString)
  | _, [] => some ([], rawURL)
  | i, c :: rest =>
    if isLower c || isUpper c then getSchemeFrom rawURL (i + 1) rest
    else if isDigit c || c == ch '+' || c == ch '-' || c == ch '.' then
      if i = 0 then some ([], rawURL) else getSchemeFrom rawURL (i + 1) rest
    else if c == ch ':' then
      if i = 0 then none else some (rawURL.take i, rest)
    else some ([], rawURL)

/-- The function `validOptionalPort` of `net/url`: empty, or a colon followed
by digits only. -/
def validOptionalPort (port : GoString) : Bool :=
  match port with
  | [] => true
  | c :: digits => c == ch ':' && digits.all isDigit

/-- The index of the last occurrence of the byte `c` in `s`
(`strings.LastIndex`), if any. -/
def lastIndexByte (s : GoString) (c : UInt8) : Option Nat :=
  if c ∈ s then some (s.length - 1 - s.reverse.indexOf c) else none

/-- The bytes that may not stand in a host: ASCII bytes for which
`shouldEscape(c, encodeHost)` holds, and `%` (not modelled). -/
def invalidHostByte (c : UInt8) : Bool :=
  decide (c < 0x80) &&
    !(isLower c || isUpper c || isDigit c || (str "!$&\x27()*+,;=:[]<>\"-_.~").contains c)

/-- The function `parseHost` of `net/url` without percent-decoding. -/
def parseHost (host : GoString) : Option GoString :=
  let portOk : Bool :=
    if hasPrefix host (str "[") then
      match lastIndexByte host (ch ']') with
      | none => false
      | some i => validOptionalPort (host.drop (i + 1))
    else
      match lastIndexByte host (ch ':') with
      | none => true
      | some i => validOptionalPort (host.drop i)
  if portOk && !host.any invalidHostByte then some host else none

/-- The function `splitHostPort` of `net/url`, first component: the host
without a valid port and without the square brackets of an IP literal. -/
def hostnameOf (hostPort : GoString) : GoString :=
  let host : GoString :=
    match lastIndexByte hostPort (ch ':') with
    | none => hostPort
    | some colon =>
      if validOptionalPort (hostPort.drop colon) then hostPort.take colon else hostPort
  if hasPrefix host (str "[") && (str "]").isSuffixOf host then
    (host.drop 1).take (host.length - 2)
  else host

/-- Model of `url.Parse(rawURL)` followed by `Hostname()`: `none` when
parsing fails. -/
def urlHostnameModel (rawURL : GoString) : Option GoString :=
  let u := rawURL.takeWhile (· != ch '#')
  if u.any (fun b => decide (b < 0x20) || b == 0x7f) then none
  else if u = str "*" then some []
  else
    match getSchemeFrom u 0 u with
    | none => none
    | some (scheme, rest) =>
      let rest := rest.takeWhile (· != ch '?')
      if !hasPrefix rest (str "/") && scheme ≠ [] then some []
      else if !hasPrefix rest (str "/") && (rest.takeWhile (· != ch '/')).contains (ch ':') then
        none
      else if (scheme ≠ [] || !hasPrefix rest (str "///")) && hasPrefix rest (str "//") then
        let authority := (rest.drop 2).takeWhile (· != ch '/')
        let host :=
          match lastIndexByte authority (ch '@') with
          | none => authority
          | some i => authority.drop (i + 1)
        (parseHost host).map hostnameOf
      else some []

/-- Model of a template renderer on templates that are plain text (no
opening double brace, not the address of a remote template): such a
template renders to itself with surrounding blanks and line feeds removed;
templates with a double brace are not modelled and fail. -/
def renderPlain (t : GoString) (_plugin : Plugin) : Except GoError GoString :=
  if str "\x7b\x7b" <:+: t then .error (str "template: not modelled")
  else .ok (((t.dropWhile (fun c => c == 32 || c == 10)).reverse.dropWhile
    (fun c => c == 32 || c == 10)).reverse)

/-- The concrete environment of the examples; its sender accepts every
payload. -/
def asciiEnv : Env where
  title := asciiTitle
  toUpper := asciiToUpper
  trimSpace := asciiTrimSpace
  urlHostname := urlHostnameModel
  renderTrim := renderPlain
  postMessage := fun _ _ => none

/-! ## Example inputs -/

/-- The zero value of `Author`. -/
def Author.zero : Author := { Username := [], Name := [], Email := [], Avatar := [] }

/-- The zero value of `Message`. -/
def Message.zero : Message := { msg := [], Title := [], Body := [] }

/-- The zero value of `Repo`. -/
def Repo.zero : Repo :=
  { Owner := [], Name := [], Link := [], HostInternal := [], HostExternal := [] }

/-- The zero value of `Build`. -/
def Build.zero : Build :=
  { Tag := [], Event := [], Number := 0, Parent := 0, Commit := [], Ref := [], Branch := [],
    Author := Author.zero, Pull := [], Message := Message.zero, DeployTo := [], Status := [],
    Link := [], Started := 0, Created := 0 }

/-- The zero value of `Config`. -/
def Config.zero : Config :=
  { Webhook := [], Channel := [], Recipient := [], Username := [], Template := [],
    Fallback := [], ImageURL := [], IconURL := [], IconEmoji := [], HostInternal := [],
    HostExternal := [], Color := [], LinkNames := false }

/-- The repository `acme/api`. -/
def exRepo : Repo := { Repo.zero with Owner := str "acme", Name := str "api" }

/-- Build 42 of `acme/api`: a failed push to `main` by `bob`. -/
def exBuild : Build :=
  { Build.zero with
    Event := str "push", Number := 42, Commit := str "abcdef1234", Branch := str "main",
    Author := { Author.zero with Username := str "bob" }, Status := str "failure",
    Link := str "https://ci.example.com/acme/api/42" }

/-- A configuration with a webhook and nothing else. -/
def exConfig : Config := { Config.zero with Webhook := str "https://hooks.example.com/T/B/x" }

/-- A configuration with every override set. -/
def exConfigFull : Config :=
  { Webhook := str "https://hooks.example.com/T/B/x", Channel := str "dev",
    Recipient := str "bob", Username := str "drone", Template := [], Fallback := [],
    ImageURL := str "https://img.example.com/i.png", IconURL := str "https://img.example.com/a.png",
    IconEmoji := str ":rocket:", HostInternal := str "ci.internal",
    HostExternal := str "ci.example.org", Color := str "#123456", LinkNames := true }

/-- The example build run by a plugin with the bare configuration. -/
def exPlugin : Plugin :=
  { Repo := exRepo, Build := exBuild, Config := exConfig, Job := { Started := 0 } }

/-- The example build run by a plugin with every override set. -/
def exPluginFull : Plugin :=
  { Repo := exRepo, Build := exBuild, Config := exConfigFull, Job := { Started := 0 } }

/-- The example build run by a plugin with a channel and no recipient. -/
def exPluginChannel : Plugin :=
  { exPlugin with Config := { exConfig with Channel := str "dev" } }

/-- The payload of `exPlugin`. -/
def exPayload : WebHookPostPayload :=
  { Username := [], IconUrl := [], IconEmoji := [], Channel := [], LinkNames := [],
    Attachments :=
      [{ Color := str "danger"
         Fallback := str "failure acme/api#abcdef12 (main) by bob"
         Text := str "*:x: Push FAILURE*\nRepo: \x60acme/api\x60 (main)\nBuild #42 (abcdef12) by bob\n<https://ci.example.com/acme/api/42|Drone CI>"
         ImageURL := []
         MarkdownIn := [str "text", str "fallback"] }] }

/-- The payload of `exPluginFull`. -/
def exPayloadFull : WebHookPostPayload :=
  { Username := str "drone", IconUrl := str "https://img.example.com/a.png",
    IconEmoji := str ":rocket:", Channel := str "@bob", LinkNames := str "1",
    Attachments :=
      [{ Color := str "#123456"
         Fallback := str "failure acme/api#abcdef12 (main) by bob"
         Text := str "*:x: Push FAILURE*\nRepo: \x60acme/api\x60 (main)\nBuild #42 (abcdef12) by bob\n<https://ci.internal/acme/api/42|Drone CI> (<https://ci.example.org/acme/api/42|External>)"
         ImageURL := str "https://img.example.com/i.png"
         MarkdownIn := [str "text", str "fallback"] }] }

/-- A promotion of the example build to `prod` that succeeded. -/
def exPromote : Build :=
  { exBuild with Event := str "promote", DeployTo := str "prod", Status := str "success" }

/-- The example build with the deploy target `prod` (event `push`). -/
def exDeployPush : Build := { exBuild with DeployTo := str "prod" }

/-- The example build with a link whose host is the single letter `h`. -/
def exShortHost : Build := { exBuild with Link := str "http://h/acme/api/42" }

/-- The example build with a link that has no scheme before its colon. -/
def exBadLink : Build := { exBuild with Link := str "://ci.example.com/acme/api/42" }

/-- The example build with a commit of three bytes. -/
def exShortCommit : Build := { exBuild with Commit := str "abc" }

/-- A plugin with plain-text templates for the body and for the fallback,
both with blanks and line feeds around the text, run on the build with the
short commit. -/
def exPluginTemplates : Plugin :=
  { Repo := exRepo, Build := exShortCommit,
    Config :=
      { exConfig with Template := str " build finished\n", Fallback := str "\n build done " },
    Job := { Started := 0 } }

/-- The example plugin with a plain-text body template, with blanks and a
line feed around the text, and no fallback template. -/
def exPluginBodyTemplate : Plugin :=
  { exPlugin with Config := { exConfig with Template := str " build finished\n" } }

/-- The example plugin with a plain-text fallback template, with blanks and
a line feed around the text, and no body template. -/
def exPluginFallbackTemplate : Plugin :=
  { exPlugin with Config := { exConfig with Fallback := str "\n build done " } }

/-- The example plugin with a body template that the renderer rejects. -/
def exPluginBadTemplate : Plugin :=
  { exPlugin with Config := { exConfig with Template := str "\x7b\x7bbuild.status" } }

/-- The example plugin with a fallback template that the renderer rejects. -/
def exPluginBadFallback : Plugin :=
  { exPlugin with Config := { exConfig with Fallback := str "\x7b\x7bbuild.status" } }

/-- The example plugin run on the build with the short commit. -/
def exPluginShortCommit : Plugin := { exPlugin with Build := exShortCommit }

/-- The concrete environment with a sender that rejects every payload. -/
def failingSenderEnv : Env :=
  { asciiEnv with postMessage := fun _ _ => some (str "slack: 500 Internal Server Error") }

/-- The payload of the example build with the fallback text `f` and the
body text `t`, under the bare configuration. -/
def exPayloadWith (f t : GoString) : WebHookPostPayload :=
  { Username := [], IconUrl := [], IconEmoji := [], Channel := [], LinkNames := [],
    Attachments :=
      [{ Color := str "danger", Fallback := f, Text := t, ImageURL := [],
         MarkdownIn := [str "text", str "fallback"] }] }

/-- The body of the example build under the bare configuration. -/
def exBody : GoString :=
  str "*:x: Push FAILURE*\nRepo: \x60acme/api\x60 (main)\nBuild #42 (abcdef12) by bob\n<https://ci.example.com/acme/api/42|Drone CI>"

/-- The bare configuration with the internal hostname override alone. -/
def exConfigInternalOnly : Config := { exConfig with HostInternal := str "ci.internal" }

/-- A commit message with a title line, a blank line and a body of two
lines, with blanks around them. -/
def exCommitText : GoString := str "  fix: trim title \n\n details here \n more\n"

/-- The characters of the decimal form of an integer. -/
def digitChars : List Char :=
  ['0', '1', '2', '3', '4', '5', '6', '7', '8', '9', '-']

/-- The text after the first line feed; empty when there is none. -/
def afterFirstLine (s : GoString) : GoString := (s.dropWhile (· != ch '\n')).drop 1

/-- The fallback text of `Exec` (lines 109-117): the rendered fallback
template when one is configured, `fallback` otherwise. -/
def fallbackStep (env : Env) (p : Plugin) : Step GoString :=
  if p.Config.Fallback ≠ [] then
    match templateMessage env p.Config.Fallback p with
    | .error err => .fail err
    | .ok f => .ok f
  else
    match fallback p.Repo p.Build with
    | none => .panic
    | some f => .ok f

/-- The body text of `Exec` (lines 133-141): the rendered body template when
one is configured, `message` otherwise. -/
def bodyStep (env : Env) (p : Plugin) : Step GoString :=
  if p.Config.Template ≠ [] then
    match templateMessage env p.Config.Template p with
    | .error err => .fail err
    | .ok t => .ok t
  else
    match message env p.Repo p.Build p.Config with
    | none => .panic
    | some t => .ok t

/-- The payload `Exec` builds from a fallback text `f` and a body text `t`
(lines 101-141). -/
def payloadOf (p : Plugin) (f t : GoString) : WebHookPostPayload :=
  { Username := p.Config.Username
    IconUrl := p.Config.IconURL
    IconEmoji := p.Config.IconEmoji
    Channel :=
      if p.Config.Recipient ≠ [] then prepend (str "@") p.Config.Recipient
      else if p.Config.Channel ≠ [] then prepend (str "#") p.Config.Channel
      else []
    LinkNames := if p.Config.LinkNames then str "1" else []
    Attachments :=
      [{ Color := if p.Config.Color = [] then color p.Build else p.Config.Color
         Fallback := f
         Text := t
         ImageURL := p.Config.ImageURL
         MarkdownIn := [str "text", str "fallback"] }] }

/-- The text up to the first line feed. -/
def firstLine (s : GoString) : GoString := s.takeWhile (· != ch '\n')

/-! ## Theorems -/

/-- C1: for every repo and every build whose commit has at least eight bytes,
`fallback` returns the one-line summary
`status owner/name#commit8 (branch) by username`, with `commit8` the first
eight bytes of the commit. -/
theorem fallback_format (repo : Repo) (build : Build) (h : 8 ≤ build.Commit.length) :
    fallback repo build =
      some (build.Status ++ str " " ++ repo.Owner ++ str "/" ++ repo.Name ++ str "#"
        ++ build.Commit.take 8 ++ str " (" ++ build.Branch ++ str ") by "
        ++ build.Author.Username) := by
  simp [fallback, sliceTo, h, Author.String]

/-- C1 at the example of the specification: owner `acme`, name `api`, status
`failure`, commit `abcdef1234`, branch `main`, author `bob`. -/
theorem fallback_format_witness :
    8 ≤ exBuild.Commit.length ∧
    fallback exRepo exBuild = some (str "failure acme/api#abcdef12 (main) by bob") :=
  ⟨by decide, (fallback_format exRepo exBuild (by decide)).trans (by decide)⟩

/-- C2: `color` is `good` for the status `success`, `danger` for the statuses
`failure`, `error` and `killed`, and `warning` for every other status. -/
theorem color_mapping (build : Build) :
    (build.Status = str "success" → color build = str "good") ∧
    (build.Status = str "failure" ∨ build.Status = str "error" ∨ build.Status = str "killed" →
      color build = str "danger") ∧
    (build.Status ≠ str "success" → build.Status ≠ str "failure" →
      build.Status ≠ str "error" → build.Status ≠ str "killed" →
      color build = str "warning") := by
  refine ⟨fun h => ?_, fun h => ?_, fun h1 h2 h3 h4 => ?_⟩
  · simp [color, h]
  · have hne : build.Status ≠ str "success" := by
      rcases h with h | h | h <;> rw [h] <;> decide
    simp [color, hne, h]
  · simp [color, h1, h2, h3, h4]

/-- C2 on the empty status and on differently-cased spellings: all are
`warning`. -/
theorem color_mapping_witness :
    color { Build.zero with Status := str "" } = str "warning" ∧
    color { Build.zero with Status := str "SUCCESS" } = str "warning" ∧
    color { Build.zero with Status := str "Failure" } = str "warning" ∧
    color { Build.zero with Status := str "success" } = str "good" ∧
    color { Build.zero with Status := str "killed" } = str "danger" :=
  ⟨(color_mapping { Build.zero with Status := str "" }).2.2
      (by decide) (by decide) (by decide) (by decide),
   (color_mapping { Build.zero with Status := str "SUCCESS" }).2.2
      (by decide) (by decide) (by decide) (by decide),
   (color_mapping { Build.zero with Status := str "Failure" }).2.2
      (by decide) (by decide) (by decide) (by decide),
   (color_mapping { Build.zero with Status := str "success" }).1 (by decide),
   (color_mapping { Build.zero with Status := str "killed" }).2.1
      (Or.inr (Or.inr (by decide)))⟩

/-- With a commit of at least eight bytes `message` returns its four parts
joined by line feeds. -/
theorem message_eq (env : Env) (repo : Repo) (build : Build) (config : Config)
    (h : 8 ≤ build.Commit.length) :
    message env repo build config =
      some (msgTitle env build ++ str "\n" ++ msgRepo repo build ++ str "\n"
        ++ (str "Build #" ++ fmtInt build.Number ++ str " (" ++ build.Commit.take 8
          ++ str ") by " ++ build.Author.Username)
        ++ str "\n" ++ msgFooter env build config) := by
  simp [message, msgBuild, sliceTo, h, Author.String]

/-- Every variant of the title starts with the star and the status icon. -/
theorem msgTitle_starts (env : Env) (build : Build) :
    str "*" ++ icon build ++ str " " <+: msgTitle env build := by
  unfold msgTitle
  simp only
  split_ifs <;> simp [List.append_assoc]

/-- C3: `icon` is the check mark for `success`, the cross mark for `failure`,
`error` and `killed`, the warning mark otherwise; and for every two
configurations the body starts with the same title `msgTitle env build`,
which starts with `*` followed by `icon build`. -/
theorem icon_mapping_not_overridable (env : Env) (repo : Repo) (build : Build)
    (c1 c2 : Config) (h : 8 ≤ build.Commit.length) :
    (build.Status = str "success" → icon build = str ":white_check_mark:") ∧
    (build.Status = str "failure" ∨ build.Status = str "error" ∨ build.Status = str "killed" →
      icon build = str ":x:") ∧
    (build.Status ≠ str "success" → build.Status ≠ str "failure" →
      build.Status ≠ str "error" → build.Status ≠ str "killed" →
      icon build = str ":warning:") ∧
    (∃ rest1 rest2,
      message env repo build c1 = some (msgTitle env build ++ str "\n" ++ rest1) ∧
      message env repo build c2 = some (msgTitle env build ++ str "\n" ++ rest2)) ∧
    str "*" ++ icon build <+: msgTitle env build := by
  refine ⟨fun h => ?_, fun h => ?_, fun h1 h2 h3 h4 => ?_, ?_, ?_⟩
  · simp [icon, h]
  · have hne : build.Status ≠ str "success" := by
      rcases h with h | h | h <;> rw [h] <;> decide
    simp [icon, hne, h]
  · simp [icon, h1, h2, h3, h4]
  · refine ⟨msgRepo repo build ++ str "\n" ++ (str "Build #" ++ fmtInt build.Number ++ str " ("
        ++ build.Commit.take 8 ++ str ") by " ++ build.Author.Username) ++ str "\n"
        ++ msgFooter env build c1,
      msgRepo repo build ++ str "\n" ++ (str "Build #" ++ fmtInt build.Number ++ str " ("
        ++ build.Commit.take 8 ++ str ") by " ++ build.Author.Username) ++ str "\n"
        ++ msgFooter env build c2, ?_, ?_⟩
    · rw [message_eq env repo build c1 h]; simp only [List.append_assoc]
    · rw [message_eq env repo build c2 h]; simp only [List.append_assoc]
  · exact (List.prefix_append _ _).trans (msgTitle_starts env build)

/-- C3 on the failed example build with a bare and a fully overridden
configuration: both bodies start with the title `*:x: Push FAILURE*`. -/
theorem icon_mapping_not_overridable_witness :
    8 ≤ exBuild.Commit.length ∧
    icon exBuild = str ":x:" ∧
    (∃ rest1 rest2,
      message asciiEnv exRepo exBuild exConfig
        = some (str "*:x: Push FAILURE*" ++ str "\n" ++ rest1) ∧
      message asciiEnv exRepo exBuild exConfigFull
        = some (str "*:x: Push FAILURE*" ++ str "\n" ++ rest2)) ∧
    str "*" ++ str ":x:" <+: str "*:x: Push FAILURE*" :=
  ⟨by decide,
   (icon_mapping_not_overridable asciiEnv exRepo exBuild exConfig exConfigFull (by decide)).2.1
     (Or.inl (by decide)),
   (icon_mapping_not_overridable asciiEnv exRepo exBuild exConfig exConfigFull (by decide)).2.2.2.1,
   (icon_mapping_not_overridable asciiEnv exRepo exBuild exConfig exConfigFull (by decide)).2.2.2.2⟩

/-- Every post of `Exec` goes to the configured webhook and carries the
payload built from a fallback text and a body text that were obtained
without failure. -/
theorem Exec_post_shape (env : Env) (p : Plugin) (call : GoString × WebHookPostPayload)
    (h : call ∈ (Exec env p).posts) :
    ∃ f t, call = (p.Config.Webhook, payloadOf p f t) ∧
      (if p.Config.Fallback ≠ [] then templateMessage env p.Config.Fallback p = .ok f
        else fallback p.Repo p.Build = some f) ∧
      (if p.Config.Template ≠ [] then templateMessage env p.Config.Template p = .ok t
        else message env p.Repo p.Build p.Config = some t) := by
  unfold Exec at h
  simp only at h
  split at h
  · simp at h
  · simp at h
  · rename_i f hf
    split at h
    · simp at h
    · simp at h
    · rename_i t ht
      refine ⟨f, t, ?_, ?_, ?_⟩
      · simp only [List.mem_singleton] at h
        rw [h]
        unfold payloadOf
        by_cases hc : p.Config.Color = [] <;> simp [hc]
      · split at hf
        · rename_i hfb
          simp only [hfb, ne_eq, not_false_eq_true, if_true]
          split at hf <;> simp_all
        · rename_i hfb
          simp only [hfb, if_false]
          split at hf <;> simp_all
      · split at ht
        · rename_i hfb
          simp only [hfb, ne_eq, not_false_eq_true, if_true]
          split at ht <;> simp_all
        · rename_i hfb
          simp only [hfb, if_false]
          split at ht <;> simp_all

/-- C4: in every payload that `Exec` hands to the sender, the colour of the
attachment is `Config.Color` when that is non-empty, whatever the build
status, and `color build` when it is empty. -/
theorem exec_attachment_color (env : Env) (p : Plugin) (webhook : GoString)
    (payload : WebHookPostPayload) (h : (webhook, payload) ∈ (Exec env p).posts) :
    (p.Config.Color ≠ [] → payload.Attachments.map Attachment.Color = [p.Config.Color]) ∧
    (p.Config.Color = [] → payload.Attachments.map Attachment.Color = [color p.Build]) := by
  obtain ⟨f, t, hcall, -, -⟩ := Exec_post_shape env p _ h
  have hp : payload = payloadOf p f t := (Prod.mk.inj hcall).2
  subst hp
  constructor
  · intro hc; simp [payloadOf, hc]
  · intro hc; simp [payloadOf, hc]

set_option maxRecDepth 100000 in
/-- C4 on the example build: the configured colour `#123456` is sent
although the build failed, and `danger` is sent when no colour is
configured. -/
theorem exec_attachment_color_witness :
    (Exec asciiEnv exPluginFull).posts = [(exConfigFull.Webhook, exPayloadFull)] ∧
    exPayloadFull.Attachments.map Attachment.Color = [str "#123456"] ∧
    (Exec asciiEnv exPlugin).posts = [(exConfig.Webhook, exPayload)] ∧
    exPayload.Attachments.map Attachment.Color = [str "danger"] :=
  ⟨by decide,
   (exec_attachment_color asciiEnv exPluginFull exConfigFull.Webhook exPayloadFull
      (by decide)).1 (by decide),
   by decide,
   (exec_attachment_color asciiEnv exPlugin exConfig.Webhook exPayload (by decide)).2
      (by decide)⟩

set_option maxRecDepth 100000 in
/-- C5, as stated, fails: a successful promotion to `prod` has the title
`*:white_check_mark: Prod Deploy SUCCESS*`; the capitalised target stands
before the word `Deploy`, and the text `Deploy Prod` occurs nowhere in the
body. -/
theorem title_promote_counterexample :
    exPromote.Event = str "promote" ∧ exPromote.DeployTo ≠ [] ∧
    8 ≤ exPromote.Commit.length ∧
    asciiEnv.title exPromote.DeployTo = str "Prod" ∧
    message asciiEnv exRepo exPromote exConfig =
      some (str "*:white_check_mark: Prod Deploy SUCCESS*\nRepo: \x60acme/api\x60 (main)\nBuild #42 (abcdef12) by bob\n<https://ci.example.com/acme/api/42|Drone CI>") ∧
    ¬ (str "Deploy " ++ asciiEnv.title exPromote.DeployTo <:+:
      str "*:white_check_mark: Prod Deploy SUCCESS*\nRepo: \x60acme/api\x60 (main)\nBuild #42 (abcdef12) by bob\n<https://ci.example.com/acme/api/42|Drone CI>") := by
  refine ⟨by decide, by decide, by decide, by decide, by decide, by decide⟩

/-- C5, amended: for every build with event `promote` and a non-empty deploy
target (commit of at least eight bytes) the title line of `message` is
`*icon Target Deploy STATUS*`: the capitalised deploy target, then the word
`Deploy`, then the upper-case status. -/
theorem title_promote (env : Env) (repo : Repo) (build : Build) (config : Config)
    (h8 : 8 ≤ build.Commit.length) (hev : build.Event = str "promote")
    (hdep : build.DeployTo ≠ []) :
    message env repo build config =
      some (str "*" ++ icon build ++ str " " ++ env.title build.DeployTo ++ str " Deploy "
        ++ env.toUpper build.Status ++ str "*"
        ++ str "\n" ++ msgRepo repo build ++ str "\n"
        ++ (str "Build #" ++ fmtInt build.Number ++ str " (" ++ build.Commit.take 8
          ++ str ") by " ++ build.Author.Username)
        ++ str "\n" ++ msgFooter env build config) := by
  rw [message_eq env repo build config h8]
  simp [msgTitle, hev, hdep]

set_option maxRecDepth 100000 in
/-- C5, amended, on the promotion of the example build to `prod`: the title
contains `Prod Deploy`. -/
theorem title_promote_witness :
    8 ≤ exPromote.Commit.length ∧ exPromote.Event = str "promote" ∧
    exPromote.DeployTo ≠ [] ∧
    message asciiEnv exRepo exPromote exConfig =
      some (str "*:white_check_mark: Prod Deploy SUCCESS*\nRepo: \x60acme/api\x60 (main)\nBuild #42 (abcdef12) by bob\n<https://ci.example.com/acme/api/42|Drone CI>") ∧
    str "Prod Deploy" <:+: str "*:white_check_mark: Prod Deploy SUCCESS*" :=
  ⟨by decide, by decide, by decide,
   (title_promote asciiEnv exRepo exPromote exConfig (by decide) (by decide)
      (by decide)).trans (by decide),
   by decide⟩

/-- C6: for every build with a commit of at least eight bytes, when the event
is not `promote` and the deploy target is non-empty the title line is
`*icon Target Event STATUS*`, and when the deploy target is empty (any
event) the title line is `*icon Event STATUS*`. -/
theorem title_deploy_event (env : Env) (repo : Repo) (build : Build) (config : Config)
    (h8 : 8 ≤ build.Commit.length) :
    (build.Event ≠ str "promote" → build.DeployTo ≠ [] →
      message env repo build config =
        some (str "*" ++ icon build ++ str " " ++ env.title build.DeployTo ++ str " "
          ++ env.title build.Event ++ str " " ++ env.toUpper build.Status ++ str "*"
          ++ str "\n" ++ msgRepo repo build ++ str "\n"
          ++ (str "Build #" ++ fmtInt build.Number ++ str " (" ++ build.Commit.take 8
            ++ str ") by " ++ build.Author.Username)
          ++ str "\n" ++ msgFooter env build config)) ∧
    (build.DeployTo = [] →
      message env repo build config =
        some (str "*" ++ icon build ++ str " " ++ env.title build.Event ++ str " "
          ++ env.toUpper build.Status ++ str "*"
          ++ str "\n" ++ msgRepo repo build ++ str "\n"
          ++ (str "Build #" ++ fmtInt build.Number ++ str " (" ++ build.Commit.take 8
            ++ str ") by " ++ build.Author.Username)
          ++ str "\n" ++ msgFooter env build config)) := by
  rw [message_eq env repo build config h8]
  constructor
  · intro hev hdep
    simp [msgTitle, hev, hdep]
  · intro hdep
    simp [msgTitle, hdep]

set_option maxRecDepth 100000 in
/-- C6 on the example build: the event `push` with deploy target `prod`
gives a title containing `Prod Push`; the event `push` without a deploy
target gives a title containing `Push`; the event `promote` without a
deploy target gives the title `*:white_check_mark: Promote SUCCESS*`. -/
theorem title_deploy_event_witness :
    (8 ≤ exDeployPush.Commit.length ∧ exDeployPush.Event ≠ str "promote" ∧
      exDeployPush.DeployTo ≠ [] ∧
      message asciiEnv exRepo exDeployPush exConfig =
        some (str "*:x: Prod Push FAILURE*\nRepo: \x60acme/api\x60 (main)\nBuild #42 (abcdef12) by bob\n<https://ci.example.com/acme/api/42|Drone CI>") ∧
      str "Prod Push" <:+: str "*:x: Prod Push FAILURE*") ∧
    (exBuild.DeployTo = [] ∧
      message asciiEnv exRepo exBuild exConfig =
        some (str "*:x: Push FAILURE*\nRepo: \x60acme/api\x60 (main)\nBuild #42 (abcdef12) by bob\n<https://ci.example.com/acme/api/42|Drone CI>") ∧
      str "Push" <:+: str "*:x: Push FAILURE*") ∧
    message asciiEnv exRepo { exPromote with DeployTo := [] } exConfig =
      some (str "*:white_check_mark: Promote SUCCESS*\nRepo: \x60acme/api\x60 (main)\nBuild #42 (abcdef12) by bob\n<https://ci.example.com/acme/api/42|Drone CI>") :=
  ⟨⟨by decide, by decide, by decide,
    ((title_deploy_event asciiEnv exRepo exDeployPush exConfig (by decide)).1 (by decide)
      (by decide)).trans (by decide),
    by decide⟩,
   ⟨by decide,
    ((title_deploy_event asciiEnv exRepo exBuild exConfig (by decide)).2 (by decide)).trans
      (by decide),
    by decide⟩,
   ((title_deploy_event asciiEnv exRepo { exPromote with DeployTo := [] } exConfig
      (by decide)).2 (by decide)).trans (by decide)⟩

/-- C7: prefixing is idempotent: `prepend p (prepend p s) = prepend p s`, and
`prepend p s = s` whenever `s` already starts with `p`. -/
theorem prepend_idempotent (p s : GoString) :
    prepend p (prepend p s) = prepend p s ∧ (p <+: s → prepend p s = s) := by
  have hpre : ∀ t : GoString, p <+: t → prepend p t = t := by
    intro t ht
    have : p.isPrefixOf t = true := List.isPrefixOf_iff_prefix.mpr ht
    simp [prepend, hasPrefix, this]
  refine ⟨?_, hpre s⟩
  by_cases h : p.isPrefixOf s = true
  · rw [hpre s (List.isPrefixOf_iff_prefix.mp h)]
    exact hpre s (List.isPrefixOf_iff_prefix.mp h)
  · have hs : prepend p s = p ++ s := by simp [prepend, hasPrefix, h]
    rw [hs]
    exact hpre (p ++ s) (List.prefix_append p s)

/-- C7 on the recipient `bob`: `@bob` is left alone and `bob` becomes
`@bob`. -/
theorem prepend_idempotent_witness :
    str "@" <+: str "@bob" ∧
    prepend (str "@") (str "@bob") = str "@bob" ∧
    prepend (str "@") (str "bob") = str "@bob" ∧
    prepend (str "@") (prepend (str "@") (str "bob")) = str "@bob" :=
  ⟨by decide,
   (prepend_idempotent (str "@") (str "@bob")).2 (by decide),
   by decide,
   ((prepend_idempotent (str "@") (str "bob")).1).trans (by decide)⟩

/-- C8: in every payload that `Exec` hands to the sender, the channel is
`prepend "@" Recipient` when the recipient is non-empty (whatever the
channel), else `prepend "#" Channel` when the channel is non-empty, else
the empty string. -/
theorem exec_channel (env : Env) (p : Plugin) (webhook : GoString)
    (payload : WebHookPostPayload) (h : (webhook, payload) ∈ (Exec env p).posts) :
    (p.Config.Recipient ≠ [] → payload.Channel = prepend (str "@") p.Config.Recipient) ∧
    (p.Config.Recipient = [] → p.Config.Channel ≠ [] →
      payload.Channel = prepend (str "#") p.Config.Channel) ∧
    (p.Config.Recipient = [] → p.Config.Channel = [] → payload.Channel = []) := by
  obtain ⟨f, t, hcall, -, -⟩ := Exec_post_shape env p _ h
  have hp : payload = payloadOf p f t := (Prod.mk.inj hcall).2
  subst hp
  refine ⟨fun hr => ?_, fun hr hc => ?_, fun hr hc => ?_⟩
  · simp [payloadOf, hr]
  · simp [payloadOf, hr, hc]
  · simp [payloadOf, hr, hc]

set_option maxRecDepth 100000 in
/-- C8 on the example build: with recipient `bob` and channel `dev` the
channel of the payload is `@bob`; with the channel `dev` alone it is `#dev`;
with neither it is empty. -/
theorem exec_channel_witness :
    (exPluginFull.Config.Recipient ≠ [] ∧ exPluginFull.Config.Channel ≠ [] ∧
      (Exec asciiEnv exPluginFull).posts = [(exConfigFull.Webhook, exPayloadFull)] ∧
      exPayloadFull.Channel = str "@bob") ∧
    ((Exec asciiEnv exPluginChannel).posts
        = [(exConfig.Webhook, { exPayload with Channel := str "#dev" })] ∧
      ({ exPayload with Channel := str "#dev" } : WebHookPostPayload).Channel
        = prepend (str "#") (str "dev")) ∧
    ((Exec asciiEnv exPlugin).posts = [(exConfig.Webhook, exPayload)] ∧
      exPayload.Channel = []) :=
  ⟨⟨by decide, by decide, by decide,
    ((exec_channel asciiEnv exPluginFull exConfigFull.Webhook exPayloadFull (by decide)).1
      (by decide)).trans (by decide)⟩,
   ⟨by decide,
    (exec_channel asciiEnv exPluginChannel exConfig.Webhook
      { exPayload with Channel := str "#dev" } (by decide)).2.1 (by decide) (by decide)⟩,
   ⟨by decide,
    (exec_channel asciiEnv exPlugin exConfig.Webhook exPayload (by decide)).2.2 (by decide)
      (by decide)⟩⟩

/-- What `strings.Replace(s, old, new, 1)` does when the first occurrence of
`old` in `s` is known: if `s = pre ++ old ++ post` and `old` does not occur
at an offset below `len(pre)`, the result is `pre ++ new ++ post`. -/
theorem replaceFirst_first_occurrence (pre old new post : GoString)
    (hfirst : ∀ k, k < pre.length → ¬ old <+: (pre ++ old ++ post).drop k) :
    replaceFirst (pre ++ old ++ post) old new = pre ++ new ++ post := by
  induction pre with
  | nil =>
    simp only [List.nil_append]
    cases hl : old ++ post with
    | nil =>
      have hnil : old = [] ∧ post = [] := List.append_eq_nil.mp hl
      simp [replaceFirst, hnil.1, hnil.2]
    | cons c s =>
      have hp : old.isPrefixOf (c :: s) = true := by
        rw [← hl]
        exact List.isPrefixOf_iff_prefix.mpr (List.prefix_append _ _)
      simp only [replaceFirst, hp, if_true]
      rw [← hl]
      simp
  | cons a pre ih =>
    have h0 := hfirst 0 (by simp)
    have hp : old.isPrefixOf (a :: (pre ++ (old ++ post))) = false := by
      cases hb : old.isPrefixOf (a :: (pre ++ (old ++ post))) with
      | false => rfl
      | true => exact absurd (by simpa using List.isPrefixOf_iff_prefix.mp hb) h0
    have ih2 := ih (fun k hk => by
      have := hfirst (k + 1) (by simpa using hk)
      simpa using this)
    have e : a :: pre ++ old ++ post = a :: (pre ++ (old ++ post)) := by simp
    rw [e, replaceFirst, hp]
    simp only [List.append_assoc] at ih2
    simp [ih2]

/-- The footer when the link parses and the first occurrence of the
hostname text in the link is the host itself: both links are the link with
the host replaced by the respective override. -/
theorem footer_hostname_replaced (env : Env) (build : Build) (config : Config)
    (pre hostname post : GoString)
    (hparse : env.urlHostname build.Link = some hostname)
    (hlink : build.Link = pre ++ hostname ++ post)
    (hfirst : ∀ k, k < pre.length → ¬ hostname <+: (pre ++ hostname ++ post).drop k)
    (hint : config.HostInternal ≠ []) (hext : config.HostExternal ≠ []) :
    msgFooter env build config =
      str "<" ++ (pre ++ config.HostInternal ++ post) ++ str "|Drone CI> (<"
        ++ (pre ++ config.HostExternal ++ post) ++ str "|External>)" := by
  have hi := replaceFirst_first_occurrence pre hostname config.HostInternal post hfirst
  have he := replaceFirst_first_occurrence pre hostname config.HostExternal post hfirst
  simp only [msgFooter, hint, hext, hparse, ne_eq, not_false_eq_true, and_self, if_true]
  rw [hlink, hi, he]

set_option maxRecDepth 100000 in
/-- C9 at a failing input: the link `http://h/acme/api/42` parses, its
hostname is `h`, and with both hostname overrides set the footer is
`<ci.internalttp://h/acme/api/42|Drone CI> (<ci.example.orgttp://h/acme/api/42|External>)`:
the first `h` of the scheme was replaced, the hostname was not. -/
theorem footer_short_hostname_evaluation :
    asciiEnv.urlHostname exShortHost.Link = some (str "h") ∧
    exConfigFull.HostInternal = str "ci.internal" ∧
    exConfigFull.HostExternal = str "ci.example.org" ∧
    message asciiEnv exRepo exShortHost exConfigFull =
      some (str "*:x: Push FAILURE*\nRepo: \x60acme/api\x60 (main)\nBuild #42 (abcdef12) by bob\n<ci.internalttp://h/acme/api/42|Drone CI> (<ci.example.orgttp://h/acme/api/42|External>)") ∧
    msgFooter asciiEnv exShortHost exConfigFull ≠
      str "<http://ci.internal/acme/api/42|Drone CI> (<http://ci.example.org/acme/api/42|External>)" := by
  refine ⟨by decide, by decide, by decide, by decide, by decide⟩

/-- C10: for every build with a commit of at least eight bytes whose link
fails URL parsing, and every configuration with both hostname overrides
non-empty, `message` returns a body whose footer is
`<L|Drone CI> (<L|External>)` with `L` the raw link. -/
theorem footer_unparsable_link (env : Env) (repo : Repo) (build : Build) (config : Config)
    (h8 : 8 ≤ build.Commit.length) (hparse : env.urlHostname build.Link = none)
    (hint : config.HostInternal ≠ []) (hext : config.HostExternal ≠ []) :
    message env repo build config =
      some (msgTitle env build ++ str "\n" ++ msgRepo repo build ++ str "\n"
        ++ (str "Build #" ++ fmtInt build.Number ++ str " (" ++ build.Commit.take 8
          ++ str ") by " ++ build.Author.Username)
        ++ str "\n"
        ++ (str "<" ++ build.Link ++ str "|Drone CI> (<" ++ build.Link ++ str "|External>)")) := by
  rw [message_eq env repo build config h8]
  simp [msgFooter, hint, hext, hparse]

set_option maxRecDepth 100000 in
/-- C10 on the link `://ci.example.com/acme/api/42`, which has no scheme
before its colon: both links of the footer are the raw link. -/
theorem footer_unparsable_link_witness :
    8 ≤ exBadLink.Commit.length ∧ asciiEnv.urlHostname exBadLink.Link = none ∧
    exConfigFull.HostInternal ≠ [] ∧ exConfigFull.HostExternal ≠ [] ∧
    message asciiEnv exRepo exBadLink exConfigFull =
      some (str "*:x: Push FAILURE*\nRepo: \x60acme/api\x60 (main)\nBuild #42 (abcdef12) by bob\n<://ci.example.com/acme/api/42|Drone CI> (<://ci.example.com/acme/api/42|External>)") :=
  ⟨by decide, by decide, by decide, by decide,
   (footer_unparsable_link asciiEnv exRepo exBadLink exConfigFull (by decide) (by decide)
      (by decide) (by decide)).trans (by decide)⟩

/-- The five ways `Exec` runs, by the results of its fallback step and of its
body step. -/
theorem Exec_eq (env : Env) (p : Plugin) :
    Exec env p =
      match fallbackStep env p with
      | .panic => { posts := [], outcome := .panic }
      | .fail err => { posts := [], outcome := .ret (some err) }
      | .ok f =>
        match bodyStep env p with
        | .panic => { posts := [], outcome := .panic }
        | .fail err => { posts := [], outcome := .ret (some err) }
        | .ok t =>
          { posts := [(p.Config.Webhook, payloadOf p f t)]
            outcome := .ret (env.postMessage p.Config.Webhook (payloadOf p f t)) } := by
  unfold Exec fallbackStep bodyStep payloadOf
  by_cases hc : p.Config.Color = [] <;> simp only [hc, if_true, if_false]

/-- The fallback step succeeds exactly when the configured fallback template
renders, or none is configured and `fallback` returns. -/
theorem fallbackStep_ok_iff (env : Env) (p : Plugin) (f : GoString) :
    fallbackStep env p = .ok f ↔
      (p.Config.Fallback ≠ [] ∧ templateMessage env p.Config.Fallback p = .ok f) ∨
      (p.Config.Fallback = [] ∧ fallback p.Repo p.Build = some f) := by
  unfold fallbackStep
  by_cases h : p.Config.Fallback = []
  · simp only [h, ne_eq, not_true_eq_false, if_false, false_and, true_and, false_or]
    cases fallback p.Repo p.Build <;> simp
  · simp only [h, ne_eq, not_false_eq_true, if_true, true_and, false_and, or_false]
    cases templateMessage env p.Config.Fallback p <;> simp

/-- The fallback step returns an error exactly when the configured fallback
template fails to render. -/
theorem fallbackStep_fail_iff (env : Env) (p : Plugin) (e : GoError) :
    fallbackStep env p = .fail e ↔
      (p.Config.Fallback ≠ [] ∧ templateMessage env p.Config.Fallback p = .error e) := by
  unfold fallbackStep
  by_cases h : p.Config.Fallback = []
  · simp only [h, ne_eq, not_true_eq_false, if_false, false_and]
    cases fallback p.Repo p.Build <;> simp
  · simp only [h, ne_eq, not_false_eq_true, if_true, true_and]
    cases templateMessage env p.Config.Fallback p <;> simp

/-- The body step succeeds exactly when the configured body template
renders, or none is configured and `message` returns. -/
theorem bodyStep_ok_iff (env : Env) (p : Plugin) (t : GoString) :
    bodyStep env p = .ok t ↔
      (p.Config.Template ≠ [] ∧ templateMessage env p.Config.Template p = .ok t) ∨
      (p.Config.Template = [] ∧ message env p.Repo p.Build p.Config = some t) := by
  unfold bodyStep
  by_cases h : p.Config.Template = []
  · simp only [h, ne_eq, not_true_eq_false, if_false, false_and, true_and, false_or]
    cases message env p.Repo p.Build p.Config <;> simp
  · simp only [h, ne_eq, not_false_eq_true, if_true, true_and, false_and, or_false]
    cases templateMessage env p.Config.Template p <;> simp

/-- The body step returns an error exactly when the configured body template
fails to render. -/
theorem bodyStep_fail_iff (env : Env) (p : Plugin) (e : GoError) :
    bodyStep env p = .fail e ↔
      (p.Config.Template ≠ [] ∧ templateMessage env p.Config.Template p = .error e) := by
  unfold bodyStep
  by_cases h : p.Config.Template = []
  · simp only [h, ne_eq, not_true_eq_false, if_false, false_and]
    cases message env p.Repo p.Build p.Config <;> simp
  · simp only [h, ne_eq, not_false_eq_true, if_true, true_and]
    cases templateMessage env p.Config.Template p <;> simp

/-- When both steps succeed `Exec` posts once and returns what the sender
returns. -/
theorem Exec_of_texts (env : Env) (p : Plugin) (f t : GoString)
    (hf : fallbackStep env p = .ok f) (ht : bodyStep env p = .ok t) :
    Exec env p =
      { posts := [(p.Config.Webhook, payloadOf p f t)]
        outcome := .ret (env.postMessage p.Config.Webhook (payloadOf p f t)) } := by
  rw [Exec_eq, hf]
  simp only [ht]

/-- Every post of `Exec` comes from a successful fallback step and a
successful body step, and `Exec` returns what the sender returns. -/
theorem Exec_post_steps (env : Env) (p : Plugin) (call : GoString × WebHookPostPayload)
    (h : call ∈ (Exec env p).posts) :
    ∃ f t, fallbackStep env p = .ok f ∧ bodyStep env p = .ok t ∧
      call = (p.Config.Webhook, payloadOf p f t) ∧
      Exec env p =
        { posts := [(p.Config.Webhook, payloadOf p f t)]
          outcome := .ret (env.postMessage p.Config.Webhook (payloadOf p f t)) } := by
  rw [Exec_eq] at h
  cases hf : fallbackStep env p with
  | panic => simp [hf] at h
  | fail e => simp [hf] at h
  | ok f =>
    cases ht : bodyStep env p with
    | panic => simp [hf, ht] at h
    | fail e => simp [hf, ht] at h
    | ok t =>
      simp only [hf, ht, List.mem_singleton] at h
      exact ⟨f, t, rfl, rfl, h, Exec_of_texts env p f t hf ht⟩

/-- C11: in every payload `Exec` posts, the attachment text is the output of
the template renderer `env.renderTrim` for `(Config.Template, plugin)` when
a body template is configured and is `message repo build config` when none
is; and once the fallback text is there, a body template that renders makes
`Exec` post the rendered text and return without a panic, whatever the
commit: `message` is not evaluated. -/
theorem exec_body_text (env : Env) (p : Plugin) :
    (∀ webhook payload, (webhook, payload) ∈ (Exec env p).posts → p.Config.Template ≠ [] →
      ∃ t, env.renderTrim p.Config.Template p = .ok t ∧
        payload.Attachments.map Attachment.Text = [t]) ∧
    (∀ webhook payload, (webhook, payload) ∈ (Exec env p).posts → p.Config.Template = [] →
      ∃ t, message env p.Repo p.Build p.Config = some t ∧
        payload.Attachments.map Attachment.Text = [t]) ∧
    (∀ f t,
      (p.Config.Fallback ≠ [] ∧ env.renderTrim p.Config.Fallback p = .ok f) ∨
        (p.Config.Fallback = [] ∧ fallback p.Repo p.Build = some f) →
      p.Config.Template ≠ [] → env.renderTrim p.Config.Template p = .ok t →
      (∃ err, (Exec env p).outcome = .ret err) ∧
      (Exec env p).posts.map (fun call => call.2.Attachments.map Attachment.Text) = [[t]]) := by
  refine ⟨fun w payload h hT => ?_, fun w payload h hT => ?_, fun f t hf hT ht => ?_⟩
  · obtain ⟨f, t, -, ht, hcall, -⟩ := Exec_post_steps env p _ h
    have hp : payload = payloadOf p f t := (Prod.mk.inj hcall).2
    rcases (bodyStep_ok_iff env p t).mp ht with ⟨-, hr⟩ | ⟨hE, -⟩
    · exact ⟨t, hr, by rw [hp]; rfl⟩
    · exact absurd hE hT
  · obtain ⟨f, t, -, ht, hcall, -⟩ := Exec_post_steps env p _ h
    have hp : payload = payloadOf p f t := (Prod.mk.inj hcall).2
    rcases (bodyStep_ok_iff env p t).mp ht with ⟨hE, -⟩ | ⟨-, hm⟩
    · exact absurd hT hE
    · exact ⟨t, hm, by rw [hp]; rfl⟩
  · have h := Exec_of_texts env p f t ((fallbackStep_ok_iff env p f).mpr hf)
      ((bodyStep_ok_iff env p t).mpr (Or.inl ⟨hT, ht⟩))
    rw [h]
    exact ⟨⟨_, rfl⟩, rfl⟩

set_option maxRecDepth 100000 in
/-- C11 on the example build: the body template ` build finished` followed
by a line feed renders to `build finished`; with it and a commit of three
bytes, on which `message` panics, the rendered text, not the template, is
posted and `Exec` returns; without a body template the text is the body
built by `message`. -/
theorem exec_body_text_witness :
    (exShortCommit.Commit.length < 8 ∧
      message asciiEnv exPluginTemplates.Repo exPluginTemplates.Build exPluginTemplates.Config
        = none ∧
      exPluginTemplates.Config.Template = str " build finished\n" ∧
      asciiEnv.renderTrim exPluginTemplates.Config.Template exPluginTemplates
        = .ok (str "build finished") ∧
      str "build finished" ≠ exPluginTemplates.Config.Template ∧
      (∃ err, (Exec asciiEnv exPluginTemplates).outcome = .ret err) ∧
      (Exec asciiEnv exPluginTemplates).posts.map
          (fun call => call.2.Attachments.map Attachment.Text) = [[str "build finished"]]) ∧
    ((Exec asciiEnv exPluginBodyTemplate).posts
        = [(exConfig.Webhook,
            exPayloadWith (str "failure acme/api#abcdef12 (main) by bob")
              (str "build finished"))] ∧
      ∃ t, asciiEnv.renderTrim exPluginBodyTemplate.Config.Template exPluginBodyTemplate
          = .ok t ∧
        (exPayloadWith (str "failure acme/api#abcdef12 (main) by bob")
          (str "build finished")).Attachments.map Attachment.Text = [t]) ∧
    (exPlugin.Config.Template = [] ∧
      (Exec asciiEnv exPlugin).posts = [(exConfig.Webhook, exPayload)] ∧
      ∃ t, message asciiEnv exPlugin.Repo exPlugin.Build exPlugin.Config = some t ∧
        exPayload.Attachments.map Attachment.Text = [t]) :=
  ⟨⟨by decide, by decide, by decide, rfl, by decide,
    (exec_body_text asciiEnv exPluginTemplates).2.2 (str "build done") (str "build finished")
      (Or.inl ⟨by decide, rfl⟩) (by decide) rfl⟩,
   ⟨by decide,
    (exec_body_text asciiEnv exPluginBodyTemplate).1 exConfig.Webhook _ (by decide)
      (by decide)⟩,
   ⟨by decide, by decide,
    (exec_body_text asciiEnv exPlugin).2.1 exConfig.Webhook exPayload (by decide)
      (by decide)⟩⟩

/-- C12: in every payload `Exec` posts, the attachment fallback is the
output of the template renderer `env.renderTrim` for
`(Config.Fallback, plugin)` when `Config.Fallback` is non-empty and is
`fallback repo build` when it is empty, whether or not a body template is
configured. -/
theorem exec_fallback_text (env : Env) (p : Plugin) (webhook : GoString)
    (payload : WebHookPostPayload) (h : (webhook, payload) ∈ (Exec env p).posts) :
    (p.Config.Fallback ≠ [] →
      ∃ f, env.renderTrim p.Config.Fallback p = .ok f ∧
        payload.Attachments.map Attachment.Fallback = [f]) ∧
    (p.Config.Fallback = [] →
      ∃ f, fallback p.Repo p.Build = some f ∧
        payload.Attachments.map Attachment.Fallback = [f]) := by
  obtain ⟨f, t, hf, -, hcall, -⟩ := Exec_post_steps env p _ h
  have hp : payload = payloadOf p f t := (Prod.mk.inj hcall).2
  constructor
  · intro hF
    rcases (fallbackStep_ok_iff env p f).mp hf with ⟨-, hr⟩ | ⟨hE, -⟩
    · exact ⟨f, hr, by rw [hp]; rfl⟩
    · exact absurd hE hF
  · intro hF
    rcases (fallbackStep_ok_iff env p f).mp hf with ⟨hE, -⟩ | ⟨-, hm⟩
    · exact absurd hF hE
    · exact ⟨f, hm, by rw [hp]; rfl⟩

set_option maxRecDepth 100000 in
/-- C12 on the example build: with a body template and no fallback template
the fallback is the summary of `fallback`; the fallback template
` build done`, with a line feed before it and a blank after it, renders to
`build done`, and with it the rendered text, not the template, is the
fallback, with and without a body template. -/
theorem exec_fallback_text_witness :
    ((Exec asciiEnv exPluginBodyTemplate).posts
        = [(exConfig.Webhook,
            exPayloadWith (str "failure acme/api#abcdef12 (main) by bob")
              (str "build finished"))] ∧
      exPluginBodyTemplate.Config.Template ≠ [] ∧
      ∃ f, fallback exRepo exBuild = some f ∧
        (exPayloadWith (str "failure acme/api#abcdef12 (main) by bob")
          (str "build finished")).Attachments.map Attachment.Fallback = [f]) ∧
    ((Exec asciiEnv exPluginFallbackTemplate).posts
        = [(exConfig.Webhook, exPayloadWith (str "build done") exBody)] ∧
      exPluginFallbackTemplate.Config.Template = [] ∧
      exPluginFallbackTemplate.Config.Fallback = str "\n build done " ∧
      asciiEnv.renderTrim exPluginFallbackTemplate.Config.Fallback exPluginFallbackTemplate
        = .ok (str "build done") ∧
      str "build done" ≠ exPluginFallbackTemplate.Config.Fallback ∧
      ∃ f, asciiEnv.renderTrim exPluginFallbackTemplate.Config.Fallback
          exPluginFallbackTemplate = .ok f ∧
        (exPayloadWith (str "build done") exBody).Attachments.map Attachment.Fallback = [f]) ∧
    ((Exec asciiEnv exPluginTemplates).posts
        = [(exConfig.Webhook, exPayloadWith (str "build done") (str "build finished"))] ∧
      exPluginTemplates.Config.Template ≠ [] ∧
      asciiEnv.renderTrim exPluginTemplates.Config.Fallback exPluginTemplates
        = .ok (str "build done") ∧
      ∃ f, asciiEnv.renderTrim exPluginTemplates.Config.Fallback exPluginTemplates = .ok f ∧
        (exPayloadWith (str "build done") (str "build finished")).Attachments.map
          Attachment.Fallback = [f]) :=
  ⟨⟨by decide, by decide,
    (exec_fallback_text asciiEnv exPluginBodyTemplate exConfig.Webhook _ (by decide)).2
      (by decide)⟩,
   ⟨by decide, by decide, by decide, rfl, by decide,
    (exec_fallback_text asciiEnv exPluginFallbackTemplate exConfig.Webhook _ (by decide)).1
      (by decide)⟩,
   ⟨by decide, by decide, rfl,
    (exec_fallback_text asciiEnv exPluginTemplates exConfig.Webhook _ (by decide)).1
      (by decide)⟩⟩

/-- On every build whose commit has fewer than eight bytes the slice
`build.Commit[:8]` panics in `fallback` and in `message`. -/
theorem short_commit_panics (env : Env) (repo : Repo) (build : Build) (config : Config)
    (h : build.Commit.length < 8) :
    fallback repo build = none ∧ message env repo build config = none := by
  have h8 : ¬ 8 ≤ build.Commit.length := by omega
  simp [fallback, message, msgBuild, sliceTo, h8]

set_option maxRecDepth 100000 in
/-- C13 at failing inputs: on the commit `abc` and on the empty commit
`fallback` and `message` panic, and `Exec` ends in that panic without a
post. -/
theorem short_commit_evaluation :
    exShortCommit.Commit = str "abc" ∧
    fallback exRepo exShortCommit = none ∧
    message asciiEnv exRepo exShortCommit exConfig = none ∧
    fallback exRepo { exBuild with Commit := [] } = none ∧
    message asciiEnv exRepo { exBuild with Commit := [] } exConfig = none ∧
    Exec asciiEnv exPluginShortCommit = { posts := [], outcome := .panic } := by
  refine ⟨by decide, by decide, by decide, by decide, by decide, by decide⟩

/-- C14: `Exec` returns the error of a fallback template or of a body
template that fails to render, unchanged and without a post; otherwise it
returns what the sender returns for the one payload it posts; an error it
returns is one of these three failures, a nil return means one post that
succeeded, and the sender is invoked at most once. -/
theorem exec_error_propagation (env : Env) (p : Plugin) :
    (∀ e, p.Config.Fallback ≠ [] → templateMessage env p.Config.Fallback p = .error e →
      (Exec env p).outcome = .ret (some e) ∧ (Exec env p).posts = []) ∧
    (∀ e f,
      (p.Config.Fallback ≠ [] ∧ templateMessage env p.Config.Fallback p = .ok f) ∨
        (p.Config.Fallback = [] ∧ fallback p.Repo p.Build = some f) →
      p.Config.Template ≠ [] → templateMessage env p.Config.Template p = .error e →
      (Exec env p).outcome = .ret (some e) ∧ (Exec env p).posts = []) ∧
    (∀ webhook payload, (webhook, payload) ∈ (Exec env p).posts →
      (Exec env p).outcome = .ret (env.postMessage webhook payload)) ∧
    (∀ e, (Exec env p).outcome = .ret (some e) →
      (p.Config.Fallback ≠ [] ∧ templateMessage env p.Config.Fallback p = .error e ∧
        (Exec env p).posts = []) ∨
      (p.Config.Template ≠ [] ∧ templateMessage env p.Config.Template p = .error e ∧
        (Exec env p).posts = []) ∨
      (∃ webhook payload, (Exec env p).posts = [(webhook, payload)] ∧
        env.postMessage webhook payload = some e)) ∧
    ((Exec env p).outcome = .ret none →
      ∃ webhook payload, (Exec env p).posts = [(webhook, payload)] ∧
        env.postMessage webhook payload = none) ∧
    (Exec env p).posts.length ≤ 1 := by
  refine ⟨fun e hF he => ?_, fun e f hf hT he => ?_, fun w payload h => ?_, fun e h => ?_,
    fun h => ?_, ?_⟩
  · have hs := (fallbackStep_fail_iff env p e).mpr ⟨hF, he⟩
    rw [Exec_eq, hs]
    exact ⟨rfl, rfl⟩
  · have hs := (fallbackStep_ok_iff env p f).mpr hf
    have hb := (bodyStep_fail_iff env p e).mpr ⟨hT, he⟩
    rw [Exec_eq, hs]
    simp [hb]
  · obtain ⟨f, t, -, -, hcall, hE⟩ := Exec_post_steps env p _ h
    rw [hE, (Prod.mk.inj hcall).1, (Prod.mk.inj hcall).2]
  · rw [Exec_eq] at h ⊢
    cases hf : fallbackStep env p with
    | panic => simp [hf] at h
    | fail e1 =>
      simp only [hf, Outcome.ret.injEq, Option.some.injEq] at h
      subst h
      exact Or.inl ⟨((fallbackStep_fail_iff env p e1).mp hf).1,
        ((fallbackStep_fail_iff env p e1).mp hf).2, rfl⟩
    | ok f =>
      cases ht : bodyStep env p with
      | panic => simp [hf, ht] at h
      | fail e1 =>
        simp only [hf, ht, Outcome.ret.injEq, Option.some.injEq] at h
        subst h
        exact Or.inr (Or.inl ⟨((bodyStep_fail_iff env p e1).mp ht).1,
          ((bodyStep_fail_iff env p e1).mp ht).2, rfl⟩)
      | ok t =>
        simp only [hf, ht, Outcome.ret.injEq] at h
        exact Or.inr (Or.inr ⟨_, _, rfl, h⟩)
  · rw [Exec_eq] at h ⊢
    cases hf : fallbackStep env p with
    | panic => simp [hf] at h
    | fail e1 => simp [hf] at h
    | ok f =>
      cases ht : bodyStep env p with
      | panic => simp [hf, ht] at h
      | fail e1 => simp [hf, ht] at h
      | ok t =>
        simp only [hf, ht, Outcome.ret.injEq] at h
        exact ⟨_, _, rfl, h⟩
  · rw [Exec_eq]
    cases hf : fallbackStep env p with
    | panic => simp
    | fail e1 => simp
    | ok f => cases ht : bodyStep env p <;> simp

set_option maxRecDepth 100000 in
/-- C14 on the example build: a fallback template and a body template that
the renderer rejects make `Exec` return the renderer's error without a
post; a sender that fails makes `Exec` return the sender's error after one
post; and with a sender that succeeds `Exec` returns nil after one post. -/
theorem exec_error_propagation_witness :
    (exPluginBadFallback.Config.Fallback ≠ [] ∧
      (Exec asciiEnv exPluginBadFallback).outcome = .ret (some (str "template: not modelled")) ∧
      (Exec asciiEnv exPluginBadFallback).posts = []) ∧
    (exPluginBadTemplate.Config.Template ≠ [] ∧
      (Exec asciiEnv exPluginBadTemplate).outcome = .ret (some (str "template: not modelled")) ∧
      (Exec asciiEnv exPluginBadTemplate).posts = []) ∧
    ((Exec failingSenderEnv exPlugin).posts = [(exConfig.Webhook, exPayload)] ∧
      (Exec failingSenderEnv exPlugin).outcome
        = .ret (some (str "slack: 500 Internal Server Error"))) ∧
    ((Exec asciiEnv exPlugin).outcome = .ret none ∧
      ∃ webhook payload, (Exec asciiEnv exPlugin).posts = [(webhook, payload)] ∧
        asciiEnv.postMessage webhook payload = none) :=
  ⟨⟨by decide,
    (exec_error_propagation asciiEnv exPluginBadFallback).1 (str "template: not modelled")
      (by decide) rfl⟩,
   ⟨by decide,
    (exec_error_propagation asciiEnv exPluginBadTemplate).2.1 (str "template: not modelled")
      (str "failure acme/api#abcdef12 (main) by bob") (Or.inr ⟨by decide, by decide⟩)
      (by decide) rfl⟩,
   ⟨by decide,
    (exec_error_propagation failingSenderEnv exPlugin).2.2.1 exConfig.Webhook exPayload
      (by decide)⟩,
   ⟨by decide, (exec_error_propagation asciiEnv exPlugin).2.2.2.2.1 (by decide)⟩⟩

/-- C18: every payload `Exec` posts goes to the configured webhook and has
exactly one attachment, with the markdown fields `text` and `fallback` and
the image `Config.ImageURL`; its username, icon URL and icon emoji are those
of the configuration; and its `link_names` is `1` when `Config.LinkNames`
is set and empty otherwise. -/
theorem exec_payload_frame (env : Env) (p : Plugin) (webhook : GoString)
    (payload : WebHookPostPayload) (h : (webhook, payload) ∈ (Exec env p).posts) :
    webhook = p.Config.Webhook ∧
    payload.Attachments.length = 1 ∧
    payload.Attachments.map Attachment.MarkdownIn = [[str "text", str "fallback"]] ∧
    payload.Attachments.map Attachment.ImageURL = [p.Config.ImageURL] ∧
    payload.Username = p.Config.Username ∧
    payload.IconUrl = p.Config.IconURL ∧
    payload.IconEmoji = p.Config.IconEmoji ∧
    (p.Config.LinkNames = true → payload.LinkNames = str "1") ∧
    (p.Config.LinkNames = false → payload.LinkNames = []) := by
  obtain ⟨f, t, -, -, hcall, -⟩ := Exec_post_steps env p _ h
  have hw : webhook = p.Config.Webhook := (Prod.mk.inj hcall).1
  have hp : payload = payloadOf p f t := (Prod.mk.inj hcall).2
  subst hp
  refine ⟨hw, rfl, rfl, rfl, rfl, rfl, rfl, fun hl => ?_, fun hl => ?_⟩
  · simp [payloadOf, hl]
  · simp [payloadOf, hl]

set_option maxRecDepth 100000 in
/-- C18 on the example build with every override set and with the bare
configuration. -/
theorem exec_payload_frame_witness :
    ((Exec asciiEnv exPluginFull).posts = [(exConfigFull.Webhook, exPayloadFull)] ∧
      exPayloadFull.Attachments.length = 1 ∧
      exPayloadFull.Attachments.map Attachment.MarkdownIn = [[str "text", str "fallback"]] ∧
      exPayloadFull.Attachments.map Attachment.ImageURL = [str "https://img.example.com/i.png"] ∧
      exPayloadFull.Username = str "drone" ∧
      exPayloadFull.IconUrl = str "https://img.example.com/a.png" ∧
      exPayloadFull.IconEmoji = str ":rocket:" ∧
      exConfigFull.LinkNames = true ∧ exPayloadFull.LinkNames = str "1") ∧
    ((Exec asciiEnv exPlugin).posts = [(exConfig.Webhook, exPayload)] ∧
      exConfig.LinkNames = false ∧ exPayload.LinkNames = []) :=
  ⟨⟨by decide,
    (exec_payload_frame asciiEnv exPluginFull exConfigFull.Webhook exPayloadFull
      (by decide)).2.1,
    (exec_payload_frame asciiEnv exPluginFull exConfigFull.Webhook exPayloadFull
      (by decide)).2.2.1,
    (exec_payload_frame asciiEnv exPluginFull exConfigFull.Webhook exPayloadFull
      (by decide)).2.2.2.1,
    (exec_payload_frame asciiEnv exPluginFull exConfigFull.Webhook exPayloadFull
      (by decide)).2.2.2.2.1,
    (exec_payload_frame asciiEnv exPluginFull exConfigFull.Webhook exPayloadFull
      (by decide)).2.2.2.2.2.1,
    (exec_payload_frame asciiEnv exPluginFull exConfigFull.Webhook exPayloadFull
      (by decide)).2.2.2.2.2.2.1,
    by decide,
    (exec_payload_frame asciiEnv exPluginFull exConfigFull.Webhook exPayloadFull
      (by decide)).2.2.2.2.2.2.2.1 (by decide)⟩,
   ⟨by decide, by decide,
    (exec_payload_frame asciiEnv exPlugin exConfig.Webhook exPayload
      (by decide)).2.2.2.2.2.2.2.2 (by decide)⟩⟩

/-- C19: for every build with a commit of at least eight bytes and every
configuration in which `HostInternal` or `HostExternal` is empty, the footer
line of `message` is the single link `<build.Link|Drone CI>` with the raw
build link. -/
theorem footer_single_link (env : Env) (repo : Repo) (build : Build) (config : Config)
    (h8 : 8 ≤ build.Commit.length)
    (hhost : config.HostInternal = [] ∨ config.HostExternal = []) :
    message env repo build config =
      some (msgTitle env build ++ str "\n" ++ msgRepo repo build ++ str "\n"
        ++ (str "Build #" ++ fmtInt build.Number ++ str " (" ++ build.Commit.take 8
          ++ str ") by " ++ build.Author.Username)
        ++ str "\n" ++ (str "<" ++ build.Link ++ str "|Drone CI>")) := by
  rw [message_eq env repo build config h8]
  rcases hhost with h | h <;> simp [msgFooter, h]

set_option maxRecDepth 100000 in
/-- C19 on the example build: with the internal override alone, with the
external override alone and with neither, the footer is
`<https://ci.example.com/acme/api/42|Drone CI>`. -/
theorem footer_single_link_witness :
    8 ≤ exBuild.Commit.length ∧
    exConfigInternalOnly.HostInternal ≠ [] ∧ exConfigInternalOnly.HostExternal = [] ∧
    message asciiEnv exRepo exBuild exConfigInternalOnly = some exBody ∧
    message asciiEnv exRepo exBuild { exConfig with HostExternal := str "ci.example.org" }
      = some exBody ∧
    message asciiEnv exRepo exBuild exConfig = some exBody ∧
    str "\n<https://ci.example.com/acme/api/42|Drone CI>" <:+ exBody :=
  ⟨by decide, by decide, by decide,
   (footer_single_link asciiEnv exRepo exBuild exConfigInternalOnly (by decide)
      (Or.inr (by decide))).trans (by decide),
   (footer_single_link asciiEnv exRepo exBuild
      { exConfig with HostExternal := str "ci.example.org" } (by decide)
      (Or.inl (by decide))).trans (by decide),
   (footer_single_link asciiEnv exRepo exBuild exConfig (by decide)
      (Or.inl (by decide))).trans (by decide),
   by decide⟩

/-- The literal `"\n"` is the one byte of the line feed. -/
theorem str_newline : str "\n" = [ch '\n'] := by decide

/-- Splitting never returns the empty list. -/
theorem splitOn_ne_nil (sep : UInt8) (s : GoString) : splitOn sep s ≠ [] := by
  cases s with
  | nil => simp [splitOn]
  | cons c s =>
    unfold splitOn
    split_ifs
    · simp
    · split <;> simp

/-- Joining moves through the first byte of the first piece. -/
theorem join_cons_cons (sep : GoString) (c : UInt8) (hd : GoString) (tl : List GoString) :
    join sep ((c :: hd) :: tl) = c :: join sep (hd :: tl) := by
  cases tl <;> simp [join]

/-- Joining the pieces of a split by the separator gives the text back. -/
theorem join_splitOn (sep : UInt8) (s : GoString) : join [sep] (splitOn sep s) = s := by
  induction s with
  | nil => simp [splitOn, join]
  | cons c s ih =>
    unfold splitOn
    split_ifs with hc
    · cases hs : splitOn sep s with
      | nil => exact absurd hs (splitOn_ne_nil sep s)
      | cons hd tl =>
        rw [hs] at ih
        simp [join, ih, hc]
    · cases hs : splitOn sep s with
      | nil => exact absurd hs (splitOn_ne_nil sep s)
      | cons hd tl =>
        rw [hs] at ih
        simp only [join_cons_cons, ih]

/-- The first piece of a split is the text before the first separator, and
the other pieces joined by the separator are the text after it. -/
theorem splitOn_first_rest (s : GoString) :
    ∃ rest, splitOn (ch '\n') s = firstLine s :: rest ∧
      join [ch '\n'] rest = afterFirstLine s := by
  induction s with
  | nil => exact ⟨[], by simp [splitOn, firstLine], by simp [join, afterFirstLine]⟩
  | cons c s ih =>
    obtain ⟨rest, hsplit, hjoin⟩ := ih
    by_cases hc : c = ch '\n'
    · refine ⟨splitOn (ch '\n') s, ?_, ?_⟩
      · simp [splitOn, firstLine, hc]
      · rw [join_splitOn]
        simp [afterFirstLine, hc]
    · refine ⟨rest, ?_, ?_⟩
      · simp only [splitOn, hc, if_false, hsplit]
        simp [firstLine, hc]
      · rw [hjoin]
        simp [afterFirstLine, hc]

/-- The first line has no line feed. -/
theorem firstLine_no_newline (s : GoString) : ch '\n' ∉ firstLine s := by
  intro h
  have := List.mem_takeWhile_imp h
  simp at this

/-- A text is its first line, followed when it has a line feed by that line
feed and the text after it. -/
theorem firstLine_afterFirstLine (s : GoString) :
    (ch '\n' ∉ s → firstLine s = s ∧ afterFirstLine s = []) ∧
    (ch '\n' ∈ s → s = firstLine s ++ [ch '\n'] ++ afterFirstLine s) := by
  induction s with
  | nil => simp [firstLine, afterFirstLine]
  | cons c s ih =>
    by_cases hc : c = ch '\n'
    · simp [firstLine, afterFirstLine, hc]
    · have hc2 : ¬ ch '\n' = c := fun h => hc h.symm
      constructor
      · intro h
        have hs : ch '\n' ∉ s := fun hm => h (List.mem_cons_of_mem _ hm)
        have := ih.1 hs
        simp only [firstLine, afterFirstLine] at this ⊢
        simp [hc, this.1, this.2]
      · intro h
        have hs : ch '\n' ∈ s := by
          rcases List.mem_cons.mp h with h | h
          · exact absurd h hc2
          · exact h
        have := ih.2 hs
        simp only [firstLine, afterFirstLine] at this ⊢
        simp only [List.takeWhile_cons, List.dropWhile_cons, bne_iff_ne, ne_eq, hc,
          not_false_eq_true, decide_True, if_true, List.cons_append]
        simpa using this

/-- C17: for every text `m`, `newCommitMessage` returns a message whose
title is the trimmed first line of `m` (the text before the first line
feed, all of `m` when there is none), whose body is the trimmed text after
the first line feed (the trimmed empty text when there is none), and whose
`String()` is `m`. -/
theorem newCommitMessage_title_body (env : Env) (m : GoString) :
    newCommitMessage env m =
      some { msg := m
             Title := env.trimSpace (firstLine m)
             Body := env.trimSpace (afterFirstLine m) } ∧
    (newCommitMessage env m).map Message.String = some m ∧
    ch '\n' ∉ firstLine m ∧
    (ch '\n' ∈ m → m = firstLine m ++ str "\n" ++ afterFirstLine m) ∧
    (ch '\n' ∉ m → firstLine m = m ∧ afterFirstLine m = []) := by
  obtain ⟨rest, hsplit, hjoin⟩ := splitOn_first_rest m
  have hmsg : newCommitMessage env m =
      some { msg := m
             Title := env.trimSpace (firstLine m)
             Body := env.trimSpace (afterFirstLine m) } := by
    simp only [newCommitMessage, hsplit, str_newline, hjoin]
  refine ⟨hmsg, ?_, firstLine_no_newline m, ?_, (firstLine_afterFirstLine m).1⟩
  · rw [hmsg]; rfl
  · rw [str_newline]; exact (firstLine_afterFirstLine m).2

set_option maxRecDepth 100000 in
/-- C17 on a commit message of four lines, and on a message of one line. -/
theorem newCommitMessage_title_body_witness :
    newCommitMessage asciiEnv exCommitText =
      some { msg := str "  fix: trim title \n\n details here \n more\n"
             Title := str "fix: trim title"
             Body := str "details here \n more" } ∧
    ch '\n' ∈ exCommitText ∧
    exCommitText = firstLine exCommitText ++ str "\n" ++ afterFirstLine exCommitText ∧
    newCommitMessage asciiEnv (str "one line") =
      some { msg := str "one line", Title := str "one line", Body := [] } :=
  ⟨(newCommitMessage_title_body asciiEnv exCommitText).1.trans (by decide),
   by decide,
   (newCommitMessage_title_body asciiEnv exCommitText).2.2.2.1 (by decide),
   (newCommitMessage_title_body asciiEnv (str "one line")).1.trans (by decide)⟩

/-- C20: `newCommitMessage` is total: for every text the split on the line
feed has at least one piece, so `newCommitMessage` returns a message; and
for the empty text the title and the body are the trimmed empty text, which
is empty when trimming the empty text gives the empty text. -/
theorem newCommitMessage_total (env : Env) (m : GoString) :
    1 ≤ (splitOn (ch '\n') m).length ∧
    (newCommitMessage env m).isSome = true ∧
    newCommitMessage env [] =
      some { msg := [], Title := env.trimSpace [], Body := env.trimSpace [] } ∧
    (env.trimSpace [] = [] →
      newCommitMessage env [] = some { msg := [], Title := [], Body := [] }) := by
  have hempty : newCommitMessage env [] =
      some { msg := [], Title := env.trimSpace [], Body := env.trimSpace [] } := by
    simp [newCommitMessage, splitOn, join]
  refine ⟨?_, ?_, hempty, fun h => ?_⟩
  · cases hs : splitOn (ch '\n') m with
    | nil => exact absurd hs (splitOn_ne_nil _ m)
    | cons hd tl => simp
  · cases hs : splitOn (ch '\n') m with
    | nil => exact absurd hs (splitOn_ne_nil _ m)
    | cons hd tl => simp [newCommitMessage, hs]
  · rw [hempty, h]

set_option maxRecDepth 100000 in
/-- C20 on the empty text and on a text without line feed. -/
theorem newCommitMessage_total_witness :
    asciiEnv.trimSpace [] = [] ∧
    newCommitMessage asciiEnv [] = some { msg := [], Title := [], Body := [] } ∧
    splitOn (ch '\n') [] = [[]] ∧
    splitOn (ch '\n') (str "one line") = [str "one line"] ∧
    (newCommitMessage asciiEnv (str "one line")).isSome = true :=
  ⟨by decide,
   (newCommitMessage_total asciiEnv []).2.2.2 (by decide),
   by decide, by decide,
   (newCommitMessage_total asciiEnv (str "one line")).2.1⟩

/-- A decimal digit is printed as one of the digit characters. -/
theorem digitChar_mem (n : Nat) : Nat.digitChar (n % 10) ∈ digitChars := by
  have h : ∀ d, d < 10 → Nat.digitChar d ∈ digitChars := by decide
  exact h _ (Nat.mod_lt _ (by decide))

/-- The digits of a natural number in base ten are digit characters. -/
theorem toDigitsCore_mem (fuel : Nat) :
    ∀ (n : Nat) (ds : List Char), (∀ c ∈ ds, c ∈ digitChars) →
      ∀ c ∈ Nat.toDigitsCore 10 fuel n ds, c ∈ digitChars := by
  induction fuel with
  | zero => intro n ds hds c hc; simpa [Nat.toDigitsCore] using hds c hc
  | succ fuel ih =>
    intro n ds hds c hc
    unfold Nat.toDigitsCore at hc
    simp only at hc
    split_ifs at hc
    · rcases List.mem_cons.mp hc with h | h
      · rw [h]; exact digitChar_mem _
      · exact hds c h
    · refine ih _ _ ?_ c hc
      intro d hd
      rcases List.mem_cons.mp hd with h | h
      · rw [h]; exact digitChar_mem _
      · exact hds d h

/-- The decimal form of an integer consists of digits and the minus sign. -/
theorem toString_int_mem (n : Int) : ∀ c ∈ (toString n).data, c ∈ digitChars := by
  intro c hc
  cases n with
  | ofNat m =>
    have : (toString (Int.ofNat m)).data = Nat.toDigits 10 m := rfl
    rw [this] at hc
    exact toDigitsCore_mem _ _ [] (by simp) c hc
  | negSucc m =>
    have : (toString (Int.negSucc m)).data = '-' :: Nat.toDigits 10 (m + 1) := rfl
    rw [this] at hc
    rcases List.mem_cons.mp hc with h | h
    · rw [h]; simp [digitChars]
    · exact toDigitsCore_mem _ _ [] (by simp) c h

/-- The decimal form of an integer has no line feed. -/
theorem fmtInt_no_newline (n : Int) : ch '\n' ∉ fmtInt n := by
  intro h
  unfold fmtInt str at h
  obtain ⟨c, hc, hb⟩ := List.mem_flatMap.mp h
  have hall : ∀ d ∈ digitChars, ch '\n' ∉ String.utf8EncodeChar d := by decide
  exact hall c (toString_int_mem n c hc) hb

set_option maxRecDepth 100000 in
/-- The ASCII upper-case mapping sends no other byte to the line feed. -/
theorem upperByte_newline (c : UInt8) (h : upperByte c = ch '\n') : c = ch '\n' := by
  have hall : ∀ n : Fin 256, upperByte ⟨⟨n⟩⟩ = ch '\n' → (⟨⟨n⟩⟩ : UInt8) = ch '\n' := by
    decide
  rcases c with ⟨⟨n⟩⟩
  exact hall n h

/-- The model of `strings.ToUpper` introduces no line feed. -/
theorem asciiToUpper_no_newline (s : GoString) (h : ch '\n' ∉ s) :
    ch '\n' ∉ asciiToUpper s := by
  intro hm
  obtain ⟨c, hc, he⟩ := List.mem_map.mp hm
  exact h (upperByte_newline c he ▸ hc)

/-- The model of `strings.Title` introduces no line feed. -/
theorem titleFrom_no_newline (s : GoString) :
    ∀ prev, ch '\n' ∉ s → ch '\n' ∉ titleFrom prev s := by
  induction s with
  | nil => intro prev _; simp [titleFrom]
  | cons c s ih =>
    intro prev h hm
    have hc : c ≠ ch '\n' := fun e => h (e ▸ List.mem_cons_self _ _)
    have hs : ch '\n' ∉ s := fun hm => h (List.mem_cons_of_mem _ hm)
    unfold titleFrom at hm
    rcases List.mem_cons.mp hm with h1 | h1
    · split_ifs at h1
      · exact hc (upperByte_newline c h1.symm)
      · exact hc h1.symm
    · exact ih c hs h1

/-- A text without the separator is the only piece of its split. -/
theorem splitOn_no_sep (sep : UInt8) (a : GoString) (h : sep ∉ a) : splitOn sep a = [a] := by
  induction a with
  | nil => simp [splitOn]
  | cons c a ih =>
    have hc : c ≠ sep := fun e => h (e ▸ List.mem_cons_self _ _)
    have ha : sep ∉ a := fun hm => h (List.mem_cons_of_mem _ hm)
    simp [splitOn, hc, ih ha]

/-- A text without the separator, followed by the separator, is the first
piece of the split. -/
theorem splitOn_append_sep (sep : UInt8) (a rest : GoString) (h : sep ∉ a) :
    splitOn sep (a ++ sep :: rest) = a :: splitOn sep rest := by
  induction a with
  | nil => simp [splitOn]
  | cons c a ih =>
    have hc : c ≠ sep := fun e => h (e ▸ List.mem_cons_self _ _)
    have ha : sep ∉ a := fun hm => h (List.mem_cons_of_mem _ hm)
    simp [splitOn, hc, ih ha]

/-- Every byte of `strings.Replace(s, old, new, 1)` is a byte of `s` or of
`new`. -/
theorem mem_replaceFirst (x : UInt8) (old new : GoString) :
    ∀ s, x ∈ replaceFirst s old new → x ∈ s ∨ x ∈ new := by
  intro s
  induction s with
  | nil =>
    intro h
    unfold replaceFirst at h
    split_ifs at h
    · exact Or.inr h
    · simp at h
  | cons c s ih =>
    intro h
    unfold replaceFirst at h
    split_ifs at h
    · rcases List.mem_append.mp h with h1 | h1
      · exact Or.inr h1
      · exact Or.inl (List.mem_of_mem_drop h1)
    · rcases List.mem_cons.mp h with h1 | h1
      · exact Or.inl (h1 ▸ List.mem_cons_self _ _)
      · rcases ih h1 with h2 | h2
        · exact Or.inl (List.mem_cons_of_mem _ h2)
        · exact Or.inr h2

/-- The three icons have no line feed. -/
theorem icon_no_newline (build : Build) : ch '\n' ∉ icon build := by
  unfold icon
  split_ifs <;> decide

/-- The title has no line feed when the event, the status and the deploy
target have none and `strings.Title` and `strings.ToUpper` introduce none. -/
theorem msgTitle_no_newline (env : Env) (build : Build)
    (htitle : ∀ s, ch '\n' ∉ s → ch '\n' ∉ env.title s)
    (hupper : ∀ s, ch '\n' ∉ s → ch '\n' ∉ env.toUpper s)
    (hev : ch '\n' ∉ build.Event) (hst : ch '\n' ∉ build.Status)
    (hdep : ch '\n' ∉ build.DeployTo) : ch '\n' ∉ msgTitle env build := by
  have h1 := icon_no_newline build
  have h2 := htitle _ hev
  have h3 := htitle _ hdep
  have h4 := hupper _ hst
  have l1 : ch '\n' ∉ str "*" := by decide
  have l2 : ch '\n' ∉ str " " := by decide
  have l3 : ch '\n' ∉ str " Deploy " := by decide
  unfold msgTitle
  simp only
  split_ifs <;> simp only [List.mem_append, not_or] <;> simp [h1, h2, h3, h4, l1, l2, l3]

/-- The repo line has no line feed when the owner, the name and the branch
have none. -/
theorem msgRepo_no_newline (repo : Repo) (build : Build)
    (ho : ch '\n' ∉ repo.Owner) (hn : ch '\n' ∉ repo.Name) (hb : ch '\n' ∉ build.Branch) :
    ch '\n' ∉ msgRepo repo build := by
  have l1 : ch '\n' ∉ str "Repo: \x60" := by decide
  have l2 : ch '\n' ∉ str "/" := by decide
  have l3 : ch '\n' ∉ str "\x60 (" := by decide
  have l4 : ch '\n' ∉ str ")" := by decide
  unfold msgRepo
  simp only [List.mem_append, not_or]
  simp [ho, hn, hb, l1, l2, l3, l4]

/-- The build line has no line feed when the commit and the username have
none. -/
theorem buildLine_no_newline (build : Build)
    (hc : ch '\n' ∉ build.Commit) (hu : ch '\n' ∉ build.Author.Username) :
    ch '\n' ∉ str "Build #" ++ fmtInt build.Number ++ str " (" ++ build.Commit.take 8
      ++ str ") by " ++ build.Author.Username := by
  have h1 := fmtInt_no_newline build.Number
  have h2 : ch '\n' ∉ build.Commit.take 8 := fun h => hc (List.mem_of_mem_take h)
  have l1 : ch '\n' ∉ str "Build #" := by decide
  have l2 : ch '\n' ∉ str " (" := by decide
  have l3 : ch '\n' ∉ str ") by " := by decide
  simp only [List.mem_append, not_or]
  simp [h1, h2, hu, l1, l2, l3]

/-- The footer has no line feed when the link and the hostname overrides
have none. -/
theorem msgFooter_no_newline (env : Env) (build : Build) (config : Config)
    (hl : ch '\n' ∉ build.Link) (hi : ch '\n' ∉ config.HostInternal)
    (he : ch '\n' ∉ config.HostExternal) : ch '\n' ∉ msgFooter env build config := by
  have l1 : ch '\n' ∉ str "<" := by decide
  have l2 : ch '\n' ∉ str "|Drone CI>" := by decide
  have l3 : ch '\n' ∉ str "|Drone CI> (<" := by decide
  have l4 : ch '\n' ∉ str "|External>)" := by decide
  have r1 : ∀ h, ch '\n' ∉ replaceFirst build.Link h config.HostInternal := fun h hm =>
    (mem_replaceFirst _ _ _ _ hm).elim hl hi
  have r2 : ∀ h, ch '\n' ∉ replaceFirst build.Link h config.HostExternal := fun h hm =>
    (mem_replaceFirst _ _ _ _ hm).elim hl he
  unfold msgFooter
  simp only
  split_ifs
  · cases hp : env.urlHostname build.Link with
    | none =>
      simp only [List.mem_append, not_or]
      simp [hl, l1, l3, l4]
    | some h =>
      simp only [List.mem_append, not_or]
      simp [r1 h, r2 h, l1, l3, l4]
  · simp only [List.mem_append, not_or]
    simp [hl, l1, l2]

/-- The split of four texts without line feed that are joined by line
feeds. -/
theorem splitOn_four (a b c d : GoString) (ha : ch '\n' ∉ a) (hb : ch '\n' ∉ b)
    (hc : ch '\n' ∉ c) (hd : ch '\n' ∉ d) :
    splitOn (ch '\n') (a ++ str "\n" ++ b ++ str "\n" ++ c ++ str "\n" ++ d) = [a, b, c, d] := by
  have e : a ++ str "\n" ++ b ++ str "\n" ++ c ++ str "\n" ++ d
      = a ++ ch '\n' :: (b ++ ch '\n' :: (c ++ ch '\n' :: d)) := by
    simp [str_newline]
  rw [e, splitOn_append_sep _ _ _ ha, splitOn_append_sep _ _ _ hb, splitOn_append_sep _ _ _ hc,
    splitOn_no_sep _ _ hd]

set_option maxRecDepth 100000 in
/-- C15, as stated, fails: the second line of the body of the example build
is `Repo: \x60acme/api\x60 (main)`, with owner and name between backticks,
not `Repo: acme/api (main)`. -/
theorem repo_line_counterexample :
    8 ≤ exBuild.Commit.length ∧
    (message asciiEnv exRepo exBuild exConfig).map (fun m => (splitOn (ch '\n') m)[1]?)
      = some (some (str "Repo: \x60acme/api\x60 (main)")) ∧
    str "Repo: " ++ exRepo.Owner ++ str "/" ++ exRepo.Name ++ str " (" ++ exBuild.Branch
      ++ str ")" = str "Repo: acme/api (main)" ∧
    (message asciiEnv exRepo exBuild exConfig).map (fun m => (splitOn (ch '\n') m)[1]?)
      ≠ some (some (str "Repo: " ++ exRepo.Owner ++ str "/" ++ exRepo.Name ++ str " ("
        ++ exBuild.Branch ++ str ")")) := by
  refine ⟨by decide, by decide, by decide, by decide⟩

/-- C15, amended: for every repo, build with a commit of at least eight
bytes and config, the second of the four parts of `message` is the repo
line `Repo: \x60owner/name\x60 (branch)`, owner and name between backticks; it
is the second line of the body when the title, the owner, the name and the
branch have no line feed. -/
theorem repo_line (env : Env) (repo : Repo) (build : Build) (config : Config)
    (h8 : 8 ≤ build.Commit.length) :
    message env repo build config =
      some (msgTitle env build ++ str "\n"
        ++ (str "Repo: \x60" ++ repo.Owner ++ str "/" ++ repo.Name ++ str "\x60 ("
          ++ build.Branch ++ str ")")
        ++ str "\n"
        ++ (str "Build #" ++ fmtInt build.Number ++ str " (" ++ build.Commit.take 8
          ++ str ") by " ++ build.Author.Username)
        ++ str "\n" ++ msgFooter env build config) ∧
    (ch '\n' ∉ msgTitle env build → ch '\n' ∉ repo.Owner → ch '\n' ∉ repo.Name →
      ch '\n' ∉ build.Branch →
      (message env repo build config).map (fun m => (splitOn (ch '\n') m)[1]?)
        = some (some (str "Repo: \x60" ++ repo.Owner ++ str "/" ++ repo.Name ++ str "\x60 ("
          ++ build.Branch ++ str ")"))) := by
  have hm := message_eq env repo build config h8
  refine ⟨hm, fun ht ho hn hb => ?_⟩
  have hr := msgRepo_no_newline repo build ho hn hb
  have e : msgTitle env build ++ str "\n" ++ msgRepo repo build ++ str "\n"
        ++ (str "Build #" ++ fmtInt build.Number ++ str " (" ++ build.Commit.take 8
          ++ str ") by " ++ build.Author.Username)
        ++ str "\n" ++ msgFooter env build config
      = msgTitle env build ++ ch '\n' :: (msgRepo repo build ++ ch '\n' ::
          ((str "Build #" ++ fmtInt build.Number ++ str " (" ++ build.Commit.take 8
            ++ str ") by " ++ build.Author.Username) ++ str "\n" ++ msgFooter env build config)) := by
    simp [str_newline]
  rw [hm, e, Option.map_some']
  simp only [splitOn_append_sep _ _ _ ht, splitOn_append_sep _ _ _ hr]
  simp [msgRepo]

set_option maxRecDepth 100000 in
/-- C15, amended, on the example build. -/
theorem repo_line_witness :
    8 ≤ exBuild.Commit.length ∧
    message asciiEnv exRepo exBuild exConfig = some exBody ∧
    (message asciiEnv exRepo exBuild exConfig).map (fun m => (splitOn (ch '\n') m)[1]?)
      = some (some (str "Repo: \x60acme/api\x60 (main)")) :=
  ⟨by decide,
   (repo_line asciiEnv exRepo exBuild exConfig (by decide)).1.trans (by decide),
   ((repo_line asciiEnv exRepo exBuild exConfig (by decide)).2 (by decide) (by decide)
      (by decide) (by decide)).trans (by decide)⟩

/-- C16: for every repo, build with a commit of at least eight bytes and
config whose string fields have no line feed (with `strings.Title` and
`strings.ToUpper` introducing none), `message` returns the title, the repo
line, the build line and the footer joined by single line feeds, its lines
are exactly these four, and the third line is
`Build #number (commit8) by username`, with the number printed in decimal
(`toString` of the integer). -/
theorem message_four_lines (env : Env) (repo : Repo) (build : Build) (config : Config)
    (h8 : 8 ≤ build.Commit.length)
    (htitle : ∀ s, ch '\n' ∉ s → ch '\n' ∉ env.title s)
    (hupper : ∀ s, ch '\n' ∉ s → ch '\n' ∉ env.toUpper s)
    (hrepo : ch '\n' ∉ repo.Owner ∧ ch '\n' ∉ repo.Name)
    (hbuild : ch '\n' ∉ build.Event ∧ ch '\n' ∉ build.Status ∧ ch '\n' ∉ build.DeployTo ∧
      ch '\n' ∉ build.Branch ∧ ch '\n' ∉ build.Commit ∧ ch '\n' ∉ build.Author.Username ∧
      ch '\n' ∉ build.Link)
    (hconfig : ch '\n' ∉ config.HostInternal ∧ ch '\n' ∉ config.HostExternal) :
    message env repo build config =
      some (join (str "\n")
        [msgTitle env build, msgRepo repo build,
         str "Build #" ++ str (toString build.Number) ++ str " (" ++ build.Commit.take 8
           ++ str ") by " ++ build.Author.Username,
         msgFooter env build config]) ∧
    (message env repo build config).map (splitOn (ch '\n')) =
      some [msgTitle env build, msgRepo repo build,
        str "Build #" ++ str (toString build.Number) ++ str " (" ++ build.Commit.take 8
          ++ str ") by " ++ build.Author.Username,
        msgFooter env build config] := by
  obtain ⟨ho, hn⟩ := hrepo
  obtain ⟨hev, hst, hdep, hbr, hco, hus, hli⟩ := hbuild
  obtain ⟨hhi, hhe⟩ := hconfig
  have hm := message_eq env repo build config h8
  have hnum : str (toString build.Number) = fmtInt build.Number := rfl
  rw [hnum]
  constructor
  · rw [hm]
    simp [join, List.append_assoc]
  · rw [hm, Option.map_some',
      splitOn_four _ _ _ _ (msgTitle_no_newline env build htitle hupper hev hst hdep)
        (msgRepo_no_newline repo build ho hn hbr) (buildLine_no_newline build hco hus)
        (msgFooter_no_newline env build config hli hhi hhe)]

set_option maxRecDepth 100000 in
/-- C16 on the example build with every override set: the body has the four
lines below and the third is `Build #42 (abcdef12) by bob`; and on the
example build with the numbers 0, 1234567 and -3 in place of 42. -/
theorem message_four_lines_witness :
    8 ≤ exBuild.Commit.length ∧
    (message asciiEnv exRepo exBuild exConfigFull).map (splitOn (ch '\n')) =
      some [str "*:x: Push FAILURE*",
        str "Repo: \x60acme/api\x60 (main)",
        str "Build #42 (abcdef12) by bob",
        str "<https://ci.internal/acme/api/42|Drone CI> (<https://ci.example.org/acme/api/42|External>)"] ∧
    message asciiEnv exRepo exBuild exConfigFull =
      some (str "*:x: Push FAILURE*\nRepo: \x60acme/api\x60 (main)\nBuild #42 (abcdef12) by bob\n<https://ci.internal/acme/api/42|Drone CI> (<https://ci.example.org/acme/api/42|External>)") ∧
    (message asciiEnv exRepo { exBuild with Number := 0 } exConfig).map (splitOn (ch '\n')) =
      some [str "*:x: Push FAILURE*",
        str "Repo: \x60acme/api\x60 (main)",
        str "Build #0 (abcdef12) by bob",
        str "<https://ci.example.com/acme/api/42|Drone CI>"] ∧
    (message asciiEnv exRepo { exBuild with Number := 1234567 } exConfig).map
        (splitOn (ch '\n')) =
      some [str "*:x: Push FAILURE*",
        str "Repo: \x60acme/api\x60 (main)",
        str "Build #1234567 (abcdef12) by bob",
        str "<https://ci.example.com/acme/api/42|Drone CI>"] ∧
    (message asciiEnv exRepo { exBuild with Number := -3 } exConfig).map (splitOn (ch '\n')) =
      some [str "*:x: Push FAILURE*",
        str "Repo: \x60acme/api\x60 (main)",
        str "Build #-3 (abcdef12) by bob",
        str "<https://ci.example.com/acme/api/42|Drone CI>"] :=
  ⟨by decide,
   ((message_four_lines asciiEnv exRepo exBuild exConfigFull (by decide)
      (fun s h => titleFrom_no_newline s _ h) asciiToUpper_no_newline
      ⟨by decide, by decide⟩
      ⟨by decide, by decide, by decide, by decide, by decide, by decide, by decide⟩
      ⟨by decide, by decide⟩).2).trans (by decide),
   ((message_four_lines asciiEnv exRepo exBuild exConfigFull (by decide)
      (fun s h => titleFrom_no_newline s _ h) asciiToUpper_no_newline
      ⟨by decide, by decide⟩
      ⟨by decide, by decide, by decide, by decide, by decide, by decide, by decide⟩
      ⟨by decide, by decide⟩).1).trans (by decide),
   ((message_four_lines asciiEnv exRepo { exBuild with Number := 0 } exConfig (by decide)
      (fun s h => titleFrom_no_newline s _ h) asciiToUpper_no_newline
      ⟨by decide, by decide⟩
      ⟨by decide, by decide, by decide, by decide, by decide, by decide, by decide⟩
      ⟨by decide, by decide⟩).2).trans (by decide),
   ((message_four_lines asciiEnv exRepo { exBuild with Number := 1234567 } exConfig
      (by decide) (fun s h => titleFrom_no_newline s _ h) asciiToUpper_no_newline
      ⟨by decide, by decide⟩
      ⟨by decide, by decide, by decide, by decide, by decide, by decide, by decide⟩
      ⟨by decide, by decide⟩).2).trans (by decide),
   ((message_four_lines asciiEnv exRepo { exBuild with Number := -3 } exConfig (by decide)
      (fun s h => titleFrom_no_newline s _ h) asciiToUpper_no_newline
      ⟨by decide, by decide⟩
      ⟨by decide, by decide, by decide, by decide, by decide, by decide, by decide⟩
      ⟨by decide, by decide⟩).2).trans (by decide)⟩

end DroneSlack
